import Mathlib

/-!
Shallow embedding of the pharaphraser repository.

The repository contains six HTTP handler variants:

* `runA` — first `onRequestPost` of `src/functions/api/paraphrase.js`
  (5-stage pipeline: variations / select / refine / tone / burstiness);
* `runB` — second `onRequestPost` of `src/functions/api/paraphrase.js`
  (4 calls: numbered variations / select via parseInt / refine / tone);
* `runC` — third `onRequestPost` of `src/functions/api/paraphrase.js`
  (4 calls, permissive callGemini that never rejects empty content);
* `runD` — `src/unnamed/part_000` (4-stage pipeline, robust callGemini);
* `runE` — `src/unnamed/part_001` (6-stage pipeline, robust callGemini);
* `runS` — `app.post` handler of `src/server.js` (single model call).

The external Gemini API is modelled by an oracle `api : Nat → ApiResult`
giving, for the k-th HTTP request issued by the handler, the joint outcome
of that request (network failure, unparseable body, non-OK status,
OK-but-missing content field, or OK with a content string).  Each handler
is a pure function of the request body, the environment and this oracle,
returning both the HTTP response and the ordered list of prompts it sent.
-/

namespace Pharaphraser

/-- JavaScript `String.prototype.trim`, implemented structurally over the
character list so that concrete runs evaluate inside the kernel
(the position-based `String.trim` of core Lean does not reduce). -/
def jsTrim (s : String) : String :=
  ⟨((s.data.dropWhile Char.isWhitespace).reverse.dropWhile Char.isWhitespace).reverse⟩

/-- Whether `s` is the empty string (structurally). -/
def jsIsEmpty (s : String) : Bool := s.data.isEmpty

/-- JavaScript `String.prototype.startsWith`. -/
def jsStartsWith (s pre : String) : Bool := pre.data.isPrefixOf s.data

/-- Drop the first `n` characters of `s`. -/
def jsDrop (s : String) (n : Nat) : String := ⟨s.data.drop n⟩

/-- The longest prefix of `s` whose characters satisfy `p`. -/
def jsTakeWhile (s : String) (p : Char → Bool) : String := ⟨s.data.takeWhile p⟩

/-- The string `s` without its longest run of leading characters satisfying `p`. -/
def jsDropWhile (s : String) (p : Char → Bool) : String := ⟨s.data.dropWhile p⟩

/-- Worker for `jsSplitOn`: left-to-right scan for non-overlapping
occurrences of the non-empty separator, exactly as JavaScript
`String.prototype.split` with a string separator.  The `fuel` argument
makes the recursion structural; every step consumes at least one
character, so `fuel = length` is always enough. -/
def splitGo (sep : List Char) : Nat → List Char → List Char → List (List Char)
  | 0, _, acc => [acc.reverse]
  | _ + 1, [], acc => [acc.reverse]
  | fuel + 1, c :: cs, acc =>
    if sep.isPrefixOf (c :: cs) then
      acc.reverse :: splitGo sep fuel ((c :: cs).drop sep.length) []
    else
      splitGo sep fuel cs (c :: acc)

/-- JavaScript `s.split(sep)` for a non-empty string separator. -/
def jsSplitOn (s sep : String) : List String :=
  (splitGo sep.data s.data.length s.data []).map (fun l => ⟨l⟩)

/-- Decimal value of a digit character list (the numeric conversion used
by `Number(choice)` and `parseInt`, applied only to digit strings). -/
def digitsVal (cs : List Char) : Nat :=
  cs.foldl (fun n c => n * 10 + (c.toNat - 48)) 0

/-- A JavaScript value as it can appear in a parsed JSON request body.
Objects and arrays are not represented: every handler only distinguishes
strings from non-strings (`typeof text !== "string"`), and a truthy
non-string is rejected on the same path as `num`/`boolean` values. -/
inductive JsVal where
  | str (s : String)
  | num (n : Int)
  | boolean (b : Bool)
  | null
deriving DecidableEq, Repr

/-- JavaScript truthiness of a `JsVal` (`""`, `0`, `false`, `null` are falsy). -/
def truthy : JsVal → Bool
  | .str s => !(jsIsEmpty s)
  | .num n => n != 0
  | .boolean b => b
  | .null => false

/-- A parsed JSON request body as read by the handlers: the `text` and
`tone` fields, `none` meaning the field is absent (`undefined`). -/
structure ReqBody where
  text : Option JsVal
  tone : Option JsVal
deriving DecidableEq, Repr

/-- The shared text validation `!text || typeof text !== "string" || text.length > 2000`
(the second variant adds `text.length === 0`, which is subsumed by `!text`):
the check fails exactly when `text` is not a non-empty string of at most
2000 characters.  JavaScript `length` counts UTF-16 units while Lean
counts code points; the two agree on all text without astral-plane
characters, which is the regime of every claim. -/
def textInvalid : Option JsVal → Bool
  | some (.str s) => jsIsEmpty s || decide (s.length > 2000)
  | _ => true

/-- Extract the text string once validation has passed. -/
def textStr : Option JsVal → String
  | some (.str s) => s
  | _ => ""

/-- Translation of `const allowedTones = ["standard", "simple", "professional", "academic"]`. -/
def allowedTones : List String := ["standard", "simple", "professional", "academic"]

/-- Translation of `const tone = body.tone || "standard"` — the falsy-default used by the
first and third variants of paraphrase.js, part_000 and part_001. -/
def toneDefaulted : Option JsVal → JsVal
  | some v => if truthy v then v else .str "standard"
  | none => .str "standard"

/-- Translation of `allowedTones.includes(tone)`:  `includes` compares with `===`, so a
non-string tone value never matches. -/
def toneAllowed : JsVal → Bool
  | .str s => allowedTones.contains s
  | _ => false

/-- The tone as a string (the validated tone is always a string). -/
def toneStr : JsVal → String
  | .str s => s
  | _ => ""

/-- The handler environment: the `GEMINI_API_KEY` variable (`none` = unset). -/
structure Env where
  geminiApiKey : Option String
deriving DecidableEq, Repr

/-- Translation of `if (!env.GEMINI_API_KEY)` — unset or empty-string key counts as missing. -/
def keyMissing (e : Env) : Bool :=
  match e.geminiApiKey with
  | none => true
  | some s => jsIsEmpty s

/-- The JSON body of an HTTP response produced by a handler. -/
inductive JsonBody where
  | errObj (error : String)
  | errDetails (error details : String)
  | resultObj (result : String)
  | paraphrasedObj (paraphrased : String)
deriving DecidableEq, Repr

/-- Whether a response body is an error envelope rather than a result. -/
def JsonBody.isError : JsonBody → Bool
  | .errObj _ => true
  | .errDetails _ _ => true
  | .resultObj _ => false
  | .paraphrasedObj _ => false

/-- An HTTP response: status, the `Content-Type` header value and the body. -/
structure HttpResp where
  status : Nat
  contentType : String
  body : JsonBody
deriving DecidableEq, Repr

/-- The `json(data, status)` helper of paraphrase.js / part_000 / part_001
(and the shape produced by `res.status(s).json(d)` and `new Response` with
a JSON `Content-Type` header in the other variants). -/
def jsonResp (b : JsonBody) (status : Nat) : HttpResp :=
  ⟨status, "application/json", b⟩

/-- The joint outcome of one HTTP request to the external Gemini API, as
observed by a handler: the fetch rejects; the body is not JSON; the status
is non-OK (with JSON body); the status is OK but the
`candidates[0].content.parts[0].text` chain is missing; or the chain
yields a content string (possibly empty or whitespace). -/
inductive ApiResult where
  | networkError
  | invalidJson
  | httpError (status : Nat)
  | okNoContent
  | ok (content : String)
deriving DecidableEq, Repr

/-- The `callGemini` of the first paraphrase.js variant, part_000 and
part_001: every failure mode, including an empty trimmed content string,
is turned into a thrown `Error` with the message shown (modelled as
`Except.error`); success returns the trimmed content. -/
def callGeminiRobust : ApiResult → Except String String
  | .networkError => .error "Failed to reach Gemini API (network error)"
  | .invalidJson => .error "Gemini returned invalid JSON"
  | .httpError s =>
      if s == 401 || s == 403 then .error "Gemini API key is invalid or unauthorized"
      else if s == 429 then .error "Gemini rate limit exceeded"
      else .error ("Gemini API error (" ++ toString s ++ ")")
  | .okNoContent => .error "Gemini returned empty content"
  | .ok c =>
      if jsIsEmpty (jsTrim c) then .error "Gemini returned empty content"
      else .ok (jsTrim c)

/-- The `callGemini` of the second paraphrase.js variant: non-OK status,
network failure, bad JSON and a missing content chain (a `TypeError` on
`data.candidates[0]`) all throw, but an OK reply whose `text` field is an
empty or whitespace string is returned trimmed, i.e. as `""`,
without any error.  The error strings never reach the client (the outer
catch replies with a generic message), so only their presence matters. -/
def callGeminiB : ApiResult → Except String String
  | .networkError => .error "fetch rejected"
  | .invalidJson => .error "response body is not JSON"
  | .httpError s => .error ("Gemini API error: " ++ toString s)
  | .okNoContent => .error "TypeError reading candidates"
  | .ok c => .ok (jsTrim c)

/-- The `callGemini` of the third paraphrase.js variant:
`data.candidates?.[0]?.content?.parts?.[0]?.text || ""` — a missing
content chain yields `""` instead of an error, and the content is NOT
trimmed. -/
def callGeminiC : ApiResult → Except String String
  | .networkError => .error "fetch rejected"
  | .invalidJson => .error "response body is not JSON"
  | .httpError s => .error ("non-OK Gemini response " ++ toString s)
  | .okNoContent => .ok ""
  | .ok c => .ok c

/-- Translation of `variationsRaw.split("|||").map(v => v.trim()).filter(Boolean)` —
shared verbatim by the first and third paraphrase.js variants, part_000
and part_001. -/
def splitVariations (raw : String) : List String :=
  ((jsSplitOn raw "|||").map (fun v => jsTrim v)).filter (fun v => !(jsIsEmpty v))

/-- Translation of `["1","2","3"].includes(choice) ? Number(choice) - 1 : 0` — the
selection-index computation shared by the first and third paraphrase.js
variants, part_000 and part_001 (`choice` is the trimmed stage-2 reply). -/
def selIndex (choice : String) : Nat :=
  if ["1", "2", "3"].contains choice then digitsVal choice.data - 1 else 0

/-- The result of one handler invocation: the HTTP response together with
the ordered list of prompts sent to the external API (one entry per
HTTP request issued, in issue order; request k received outcome `api k`). -/
structure RunResult where
  resp : HttpResp
  prompts : List String
deriving DecidableEq, Repr

/-- Prompt template for stage 1 of the first paraphrase.js variant,
translated verbatim from the source template literal. -/
def stage1PromptA (text : String) : String :=
  "\nYou are a skilled human writer rewriting content to sound completely natural and undetectable.\n\nCreate THREE completely different versions of the text below. For each version:\n- Use varied sentence lengths (mix short punchy sentences with longer flowing ones)\n- Start sentences differently (avoid repetitive patterns)\n- Use natural transitions and connectors humans use (\"though\", \"however\", \"actually\", \"in fact\")\n- Mix sentence structures (simple, compound, complex)\n- Use active voice predominantly but occasionally passive where natural\n- Include subtle informal touches if appropriate (contractions, natural phrasing)\n- Avoid overly formal or robotic patterns\n- Change word order and paragraph flow significantly\n- Use synonyms that humans would naturally choose, not thesaurus replacements\n\nOutput ONLY the three rewrites separated by |||. No explanations.\n\nORIGINAL TEXT:\n" ++ text ++ "\n"

/-- Prompt template for stage 2 of the first paraphrase.js variant (also
used verbatim as stage 2 of part_001). -/
def stage2PromptA (v1 v2 v3 : String) : String :=
  "\nYou\x27re an expert at detecting natural human writing vs AI patterns.\n\nWhich rewrite sounds MOST like authentic human writing?\nConsider:\n- Natural flow and rhythm\n- Varied sentence structure\n- Absence of AI patterns (overly formal, repetitive structures)\n- Human-like word choices\n- Natural transitions\n\nReply ONLY with the number 1, 2, or 3.\n\n1. " ++ v1 ++ "\n2. " ++ v2 ++ "\n3. " ++ v3 ++ "\n"

/-- Prompt template for stage 3 of the first paraphrase.js variant. -/
def stage3PromptA (sel : String) : String :=
  "\nYou are refining this text to be completely undetectable by AI detection tools.\n\nApply these human writing characteristics:\n1. Vary sentence rhythm - mix 5-word sentences with 20+ word sentences\n2. Use natural human connectors (\"and\", \"but\", \"though\", \"while\", \"since\")\n3. Break up any repetitive patterns in sentence structure\n4. Use contractions naturally where appropriate (don\x27t, it\x27s, we\x27re)\n5. Add slight stylistic variation (not every sentence should follow subject-verb-object)\n6. Use more specific, concrete language over generic terms\n7. Avoid these AI tells:\n   - Starting multiple sentences the same way\n   - Overuse of formal vocabulary\n   - Perfectly balanced sentence lengths\n   - Lists with identical grammatical structure\n   - Overuse of adverbs (particularly, significantly, notably)\n8. Write like you\x27re explaining to a friend, not writing an essay\n\nOutput ONLY the refined text. No explanations.\n\nTEXT:\n" ++ sel ++ "\n"

/-- Prompt template for stage 4 of the first paraphrase.js variant (also
used verbatim as stage 4 of part_001). -/
def stage4PromptA (tone sel : String) : String :=
  "\nApply a " ++ tone ++ " tone while keeping the text authentically human.\n\nFinal polish checklist:\n- Ensure natural, conversational flow\n- Remove any remaining robotic patterns\n- Vary sentence openings\n- Mix sentence complexity (some simple, some complex)\n- Use natural human phrasing for the " ++ tone ++ " tone\n- Keep it genuine - humans aren\x27t perfect writers\n- Avoid AI red flags: overly formal language, repetitive structures, excessive politeness\n\nIf tone is \"simple\": Use everyday words, short sentences, clear and direct\nIf tone is \"professional\": Confident and clear, but still conversational \nIf tone is \"academic\": Formal but not robotic, use discipline-appropriate language\nIf tone is \"standard\": Natural middle ground, like a good blog post\n\nOutput ONLY the final polished text.\n\nTEXT:\n" ++ sel ++ "\n"

/-- Prompt template for stage 5 of the first paraphrase.js variant. -/
def stage5PromptA (tone txt : String) : String :=
  "\nAI detectors measure \"perplexity\" (word predictability) and \"burstiness\" (sentence length variation).\nHumans have HIGH burstiness (varied sentences) and HIGHER perplexity (less predictable word choices).\n\nRewrite this to maximize both:\n\nPERPLEXITY (make word choices less predictable):\n- Replace obvious next-word choices with natural alternatives\n- Use less common but appropriate synonyms occasionally\n- Vary your vocabulary - don\x27t repeat the same descriptive words\n- Choose unexpected but fitting transitions\n\nBURSTINESS (create dramatic sentence length variation):\n- Make some sentences very short. Like this.\n- Then create longer, more flowing sentences that weave together multiple ideas with natural connectors and build a complete thought before ending.\n- Follow with medium-length sentences for balance.\n- Mix it up constantly - avoid any pattern.\n\nTarget: 30-50% variation in sentence length, with at least 2 sentences under 8 words and 2 over 20 words.\n\nKeep all meaning and the " ++ tone ++ " tone. Output ONLY the final text.\n\nTEXT:\n" ++ txt ++ "\n"

/-- The 500 error response of the first paraphrase.js variant, part_000
and part_001 (`json({ error: "Paraphrasing failed", details: err.message }, 500)`). -/
def failRobust (msg : String) : HttpResp :=
  jsonResp (.errDetails "Paraphrasing failed" msg) 500

/-- The first `onRequestPost` of `src/functions/api/paraphrase.js`:
validation, key check, then the 5-stage pipeline
variations → select → refine → tone → burstiness. -/
def runA (body : ReqBody) (env : Env) (api : Nat → ApiResult) : RunResult :=
  if textInvalid body.text then ⟨jsonResp (.errObj "Invalid input text") 400, []⟩
  else if !toneAllowed (toneDefaulted body.tone) then ⟨jsonResp (.errObj "Invalid tone") 400, []⟩
  else if keyMissing env then
    ⟨jsonResp (.errObj "GEMINI_API_KEY is missing in environment variables") 500, []⟩
  else
    let text := textStr body.text
    let tone := toneStr (toneDefaulted body.tone)
    let p1 := stage1PromptA text
    match callGeminiRobust (api 0) with
    | .error e => ⟨failRobust e, [p1]⟩
    | .ok variationsRaw =>
      let variations := splitVariations variationsRaw
      if variations.length < 3 then
        ⟨failRobust "Gemini failed to generate 3 variations", [p1]⟩
      else
        let p2 := stage2PromptA (variations[0]!) (variations[1]!) (variations[2]!)
        match callGeminiRobust (api 1) with
        | .error e => ⟨failRobust e, [p1, p2]⟩
        | .ok selectionRaw =>
          let selected := variations[selIndex (jsTrim selectionRaw)]!
          let p3 := stage3PromptA selected
          match callGeminiRobust (api 2) with
          | .error e => ⟨failRobust e, [p1, p2, p3]⟩
          | .ok sel3 =>
            let p4 := stage4PromptA tone sel3
            match callGeminiRobust (api 3) with
            | .error e => ⟨failRobust e, [p1, p2, p3, p4]⟩
            | .ok final4 =>
              let p5 := stage5PromptA tone final4
              match callGeminiRobust (api 4) with
              | .error e => ⟨failRobust e, [p1, p2, p3, p4, p5]⟩
              | .ok final5 => ⟨jsonResp (.resultObj final5) 200, [p1, p2, p3, p4, p5]⟩

/-- Prompt template for stage1PromptB, translated verbatim from the source template literal. -/
def stage1PromptB (text : String) : String :=
  "You are an expert editor. Rewrite the following text by deeply changing sentence structure and wording while preserving the original meaning. Do not add or remove information. Avoid clich\u00e9s and repetitive phrasing. Generate 3 different variations.\n\nText: \"" ++ text ++ "\"\n\nOutput each variation on a new line, numbered 1., 2., 3."

/-- Prompt template for selectPromptB, translated verbatim from the source template literal. -/
def selectPromptB (text v1 v2 v3 : String) : String :=
  "Here are 3 paraphrased versions of the text \"" ++ text ++ "\":\n\n1. " ++ v1 ++ "\n\n2. " ++ v2 ++ "\n\n3. " ++ v3 ++ "\n\nSelect the best one based on meaning preservation, naturalness, and readability. Output only the number (1, 2, or 3)."

/-- Prompt template for stage2PromptB, translated verbatim from the source template literal. -/
def stage2PromptB (sel : String) : String :=
  "Improve the following rewritten text to sound more fluent, natural, and human-written. Vary sentence length and rhythm. Remove robotic or AI-like phrasing. Output ONLY the improved text.\n\nText: \"" ++ sel ++ "\""

/-- Prompt template for stage3PromptB, translated verbatim from the source template literal. -/
def stage3PromptB (tone txt : String) : String :=
  "Rewrite the following text in a " ++ tone ++ " tone. Keep clarity, coherence, and meaning intact. Do not explain changes. Output ONLY the final paraphrased text.\n\nText: \"" ++ txt ++ "\""

/-- Prompt template for stage1PromptC, translated verbatim from the source template literal. -/
def stage1PromptC (text : String) : String :=
  "\nRewrite the text below in THREE different ways.\nEach rewrite must preserve meaning but change structure and wording deeply.\nOutput ONLY the three rewrites separated by |||.\n\nTEXT:\n" ++ text ++ "\n"

/-- Prompt template for stage2PromptC, translated verbatim from the source template literal. -/
def stage2PromptC (v1 v2 v3 : String) : String :=
  "\nChoose the BEST rewrite based on clarity, naturalness, and meaning preservation.\nReply ONLY with the number 1, 2, or 3.\n\n1. " ++ v1 ++ "\n2. " ++ v2 ++ "\n3. " ++ v3 ++ "\n"

/-- Prompt template for stage3PromptC, translated verbatim from the source template literal. -/
def stage3PromptC (sel : String) : String :=
  "\nImprove the text to sound fluent, human, and natural.\nAvoid AI patterns.\nOutput ONLY the rewritten text.\n\nTEXT:\n" ++ sel ++ "\n"

/-- Prompt template for stage4PromptC, translated verbatim from the source template literal. -/
def stage4PromptC (tone sel : String) : String :=
  "\nRewrite the text in a " ++ tone ++ " tone.\nPreserve meaning and clarity.\nOutput ONLY the final text.\n\nTEXT:\n" ++ sel ++ "\n"

/-- Prompt template for stage1PromptD, translated verbatim from the source template literal. -/
def stage1PromptD (text : String) : String :=
  "\nRewrite the text below in THREE different ways.\nEach rewrite must preserve meaning but change structure and wording deeply.\nOutput ONLY the three rewrites separated by |||.\n\nTEXT:\n" ++ text ++ "\n"

/-- Prompt template for stage2PromptD, translated verbatim from the source template literal. -/
def stage2PromptD (v1 v2 v3 : String) : String :=
  "\nChoose the BEST rewrite based on clarity, naturalness, and meaning preservation.\nReply ONLY with the number 1, 2, or 3.\n\n1. " ++ v1 ++ "\n2. " ++ v2 ++ "\n3. " ++ v3 ++ "\n"

/-- Prompt template for stage3PromptD, translated verbatim from the source template literal. -/
def stage3PromptD (sel : String) : String :=
  "\nImprove the text to sound fluent, natural, and human-written.\nAvoid AI patterns.\nOutput ONLY the rewritten text.\n\nTEXT:\n" ++ sel ++ "\n"

/-- Prompt template for stage4PromptD, translated verbatim from the source template literal. -/
def stage4PromptD (tone sel : String) : String :=
  "\nRewrite the text in a " ++ tone ++ " tone.\nPreserve meaning and clarity.\nOutput ONLY the final text.\n\nTEXT:\n" ++ sel ++ "\n"

/-- Prompt template for stage1PromptE, translated verbatim from the source template literal. -/
def stage1PromptE (text : String) : String :=
  "\nREWRITE this text to be completely undetectable by AI detectors. Think like a real human writer.\n\nCREATE THREE VERSIONS using these strict rules:\n\n1. SENTENCE VARIETY (critical):\n   - At least 2 very short sentences (3-7 words)\n   - At least 2 long sentences (20+ words)\n   - NO patterns - random mix of lengths\n   - Start sentences in completely different ways\n\n2. HUMAN PATTERNS:\n   - Use casual connectors: \"And\", \"But\", \"So\" to start sentences sometimes\n   - Add natural fillers: \"actually\", \"basically\", \"really\", \"just\"\n   - Use contractions freely: don\x27t, can\x27t, it\x27s, we\x27re, I\x27m\n   - Occasionally use incomplete thoughts that get completed\n\n3. BREAK AI PATTERNS:\n   - NEVER use: \"furthermore\", \"moreover\", \"additionally\", \"consequently\" \n   - AVOID: \"significant\", \"utilize\", \"demonstrate\", \"implement\"\n   - NO bullet-point-like structures\n   - NO parallel sentence structures (every sentence should be structurally different)\n\n4. WORD CHOICES:\n   - Use simpler, everyday words\n   - Choose unexpected but natural synonyms\n   - Vary how you express ideas (don\x27t repeat patterns)\n\n5. FLOW:\n   - Write like you\x27re talking to someone\n   - Some ideas flow naturally into the next, some don\x27t\n   - Not every transition needs to be perfect\n\nOUTPUT: Three complete rewrites separated by |||. NO explanations.\n\nTEXT:\n" ++ text ++ "\n"

/-- Prompt template for stage2PromptE, translated verbatim from the source template literal. -/
def stage2PromptE (v1 v2 v3 : String) : String :=
  "\nYou\x27re an expert at detecting natural human writing vs AI patterns.\n\nWhich rewrite sounds MOST like authentic human writing?\nConsider:\n- Natural flow and rhythm\n- Varied sentence structure\n- Absence of AI patterns (overly formal, repetitive structures)\n- Human-like word choices\n- Natural transitions\n\nReply ONLY with the number 1, 2, or 3.\n\n1. " ++ v1 ++ "\n2. " ++ v2 ++ "\n3. " ++ v3 ++ "\n"

/-- Prompt template for stage3PromptE, translated verbatim from the source template literal. -/
def stage3PromptE (sel : String) : String :=
  "\nAI DETECTORS look for patterns. Your job: DESTROY all patterns.\n\nAPPLY THESE FIXES:\n\n1. SENTENCE LENGTH CHAOS:\n   - Current text probably has similar-length sentences (AI habit)\n   - FIX: Make some 4-5 words. Others 25+ words. Random mix.\n   - Count the words - force variety\n\n2. SENTENCE STARTERS:\n   - Check: Do sentences start similarly? (The, It, This, etc.)\n   - FIX: Start with different parts of speech - verbs, adverbs, conjunctions\n   - Use \"And\", \"But\", \"So\" sometimes (humans do this, AI avoids it)\n\n3. VOCABULARY DOWNGRADE:\n   - Replace fancy AI words with normal ones:\n   - \"utilize\" \u2192 \"use\"\n   - \"demonstrate\" \u2192 \"show\" \n   - \"significant\" \u2192 \"big\" or \"major\"\n   - \"implement\" \u2192 \"do\" or \"put in place\"\n   - \"furthermore\" \u2192 \"also\" or \"and\"\n\n4. ADD HUMAN QUIRKS:\n   - Use contractions everywhere natural\n   - Add emphasis words: \"really\", \"actually\", \"pretty\", \"quite\"\n   - Occasional casual phrasing\n   - Not every sentence needs perfect transitions\n\n5. RHYTHM BREAKING:\n   - AI loves: statement, statement, statement\n   - Humans use: short punch. Long explanation that flows. Medium followup.\n   - Mix it completely randomly\n\n6. REMOVE:\n   - All adverbs ending in -ly if possible\n   - Perfect parallel structures  \n   - Overly formal tone\n   - Academic-sounding phrases\n\nWrite like a human blogs or talks, not like AI writes essays.\n\nOUTPUT: Refined text only.\n\nTEXT:\n" ++ sel ++ "\n"

/-- Prompt template for stage4PromptE, translated verbatim from the source template literal. -/
def stage4PromptE (tone sel : String) : String :=
  "\nApply a " ++ tone ++ " tone while keeping the text authentically human.\n\nFinal polish checklist:\n- Ensure natural, conversational flow\n- Remove any remaining robotic patterns\n- Vary sentence openings\n- Mix sentence complexity (some simple, some complex)\n- Use natural human phrasing for the " ++ tone ++ " tone\n- Keep it genuine - humans aren\x27t perfect writers\n- Avoid AI red flags: overly formal language, repetitive structures, excessive politeness\n\nIf tone is \"simple\": Use everyday words, short sentences, clear and direct\nIf tone is \"professional\": Confident and clear, but still conversational \nIf tone is \"academic\": Formal but not robotic, use discipline-appropriate language\nIf tone is \"standard\": Natural middle ground, like a good blog post\n\nOutput ONLY the final polished text.\n\nTEXT:\n" ++ sel ++ "\n"

/-- Prompt template for stage5PromptE, translated verbatim from the source template literal. -/
def stage5PromptE (tone txt : String) : String :=
  "\nFINAL CHECK: Make this text 100% undetectable.\n\nAI DETECTION KILLER TECHNIQUES:\n\n1. EXTREME SENTENCE VARIATION:\n   - Shortest sentence: 3-5 words MAX\n   - Longest sentence: 25-35 words\n   - Create UNPREDICTABLE pattern: short, long, medium, short, very long, medium, etc.\n   - No two consecutive sentences should be similar length\n\n2. WORD UNPREDICTABILITY:\n   - Where AI would say \"important\" \u2192 say \"key\" or \"crucial\" or \"big deal\"\n   - Where AI would say \"however\" \u2192 say \"but\" or \"though\" or just start new sentence\n   - Use everyday words, not formal ones\n   - Occasionally use colloquial expressions if appropriate\n\n3. STRUCTURE CHAOS:\n   - Mix simple sentences with complex ones randomly\n   - Some sentences with commas and clauses, others without\n   - Vary how you connect ideas (sometimes with connectors, sometimes just new sentences)\n   - Break expected patterns\n\n4. HUMAN TOUCHES:\n   - Contractions in at least 30% of opportunities\n   - Start at least one sentence with \"And\", \"But\", or \"So\"\n   - Use personal pronouns naturally (we, you, I if appropriate)\n   - Add subtle emphasis: \"really\", \"actually\", \"definitely\"\n\n5. TONE CHECK (" ++ tone ++ "):\n   - Simple: Talk like a friend explaining something\n   - Professional: Confident but conversational, not corporate\n   - Academic: Scholarly but not robotic or overly formal\n   - Standard: Natural blog-post style\n\n6. FINAL SCAN:\n   - Count words in each sentence - are they varied enough?\n   - Read aloud - does it sound like a human or AI?\n   - Any repeated sentence patterns? BREAK THEM.\n\nOUTPUT: The final humanized text.\n\nTEXT:\n" ++ txt ++ "\n"

/-- Prompt template for stage6PromptE, translated verbatim from the source template literal. -/
def stage6PromptE (tone txt : String) : String :=
  "\nThis is the FINAL PASS. Your ONLY job: make this pass AI detection at 0-20% AI likelihood.\n\nAI DETECTORS SPECIFICALLY FLAG THESE - ELIMINATE THEM ALL:\n\n\u274c BANNED WORDS (replace with natural alternatives):\n- Additionally, Furthermore, Moreover, Consequently \u2192 use \"Also\", \"And\", \"Plus\", \"So\"\n- Utilize, Leverage \u2192 use \"use\"\n- Demonstrates, Showcases \u2192 use \"shows\"\n- Significant, Substantial \u2192 use \"big\", \"major\", \"important\"\n- Implement, Execute \u2192 use \"do\", \"make\", \"put in place\"\n- Facilitate \u2192 use \"help\", \"make easier\"\n- Enhance \u2192 use \"improve\", \"make better\"\n- Comprehensive \u2192 use \"complete\", \"full\"\n- Robust \u2192 use \"strong\", \"solid\"\n- Ensure \u2192 use \"make sure\"\n\n\u274c AI SENTENCE PATTERNS (rewrite these):\n- \"It is important to note that...\" \u2192 just state the fact\n- \"This allows for...\" \u2192 use \"This lets...\"\n- \"In order to...\" \u2192 use \"To...\"\n- \"Due to the fact that...\" \u2192 use \"Because...\"\n- \"For the purpose of...\" \u2192 use \"To...\"\n\n\u2705 DO THIS:\n1. Replace at least 3 formal words with casual equivalents\n2. Add 2+ contractions (don\x27t, can\x27t, it\x27s, won\x27t)\n3. Start at least 1 sentence with: And, But, or So\n4. Make shortest sentence 5 words or less\n5. Make longest sentence 25+ words\n6. Use simple, direct language\n7. Break any repetitive rhythm\n\n\u2705 HUMAN WRITING SIGNS:\n- Varied punctuation (mix periods, commas, occasional dashes)\n- Natural flow, not robotic precision\n- Some sentences that dive straight into the point\n- Conversational tone (like explaining to a colleague)\n\nKeep the " ++ tone ++ " tone and all original meaning.\n\nOUTPUT: The final undetectable text ONLY.\n\nTEXT:\n" ++ txt ++ "\n"

/-- Prompt template of server.js, translated verbatim from the source template literal. -/
def promptS (text : String) : String :=
  "Rewrite the following text as if written by a university student explaining their own work. Keep the original meaning fully intact. Use natural sentence length variation. Maintain an academic but human tone. Avoid robotic or overly polished language. Do not add new facts. Do not shorten aggressively. Do not mention AI or rewriting in the output.\n\nOriginal text: " ++ text


/-- Translation of the variation parsing of the second paraphrase.js
variant: `find` of the first trimmed line starting with the two-character
tag, with the tag and following whitespace stripped, and the `|| ""`
fallback collapsing a missing line (or an empty remainder) to `""`. -/
def findNumbered (tag : String) (lines : List String) : String :=
  match lines.find? (fun l => jsStartsWith l tag) with
  | some l => jsDropWhile (jsDrop l 2) Char.isWhitespace
  | none => ""

/-- JavaScript `parseInt` on an already-trimmed string: an optional sign
followed by leading decimal digits; `none` models `NaN`. -/
def jsParseInt (s : String) : Option Int :=
  let core := if jsStartsWith s "-" || jsStartsWith s "+" then jsDrop s 1 else s
  let digits := jsTakeWhile core Char.isDigit
  if jsIsEmpty digits then none
  else some ((if jsStartsWith s "-" then -1 else 1) * (digitsVal digits.data : Int))

/-- Translation of `variationsText.split("\n").map(l => l.trim()).filter(l => l)` of the
second paraphrase.js variant. -/
def linesOf (s : String) : List String :=
  ((jsSplitOn s "\n").map (fun l => jsTrim l)).filter (fun l => !(jsIsEmpty l))

/-- The selection cascade of the second paraphrase.js variant:
`if (selectedNum === 1) ... else if ... else throw new Error("Invalid selection")`
(`none` models the throw). -/
def selectVarB (n : Option Int) (v1 v2 v3 : String) : Option String :=
  if n = some 1 then some v1
  else if n = some 2 then some v2
  else if n = some 3 then some v3
  else none

/-- The 500 error response of the second paraphrase.js variant. -/
def errRespB : HttpResp := jsonResp (.errObj "Internal server error") 500

/-- The second `onRequestPost` of `src/functions/api/paraphrase.js`:
numbered-line variations, selection via `parseInt` (throwing on an invalid
selection), then refine and tone stages.  Note: the tone is NOT defaulted;
a missing or non-allowed tone is rejected with 400. -/
def runB (body : ReqBody) (env : Env) (api : Nat → ApiResult) : RunResult :=
  if textInvalid body.text then
    ⟨jsonResp (.errObj "Invalid input: text must be a non-empty string under 2000 characters") 400, []⟩
  else if !(match body.tone with | some v => toneAllowed v | none => false) then
    ⟨jsonResp (.errObj "Invalid tone: must be one of standard, simple, professional, academic") 400, []⟩
  else if keyMissing env then ⟨jsonResp (.errObj "Server configuration error") 500, []⟩
  else
    let text := textStr body.text
    let tone := toneStr (body.tone.getD (.str ""))
    let p1 := stage1PromptB text
    match callGeminiB (api 0) with
    | .error _ => ⟨errRespB, [p1]⟩
    | .ok variationsText =>
      let lines := linesOf variationsText
      let var1 := findNumbered "1." lines
      let var2 := findNumbered "2." lines
      let var3 := findNumbered "3." lines
      if jsIsEmpty var1 || jsIsEmpty var2 || jsIsEmpty var3 then ⟨errRespB, [p1]⟩
      else
        let pSel := selectPromptB text var1 var2 var3
        match callGeminiB (api 1) with
        | .error _ => ⟨errRespB, [p1, pSel]⟩
        | .ok selectedNumStr =>
          match selectVarB (jsParseInt (jsTrim selectedNumStr)) var1 var2 var3 with
          | none => ⟨errRespB, [p1, pSel]⟩
          | some selected =>
            let p2 := stage2PromptB selected
            match callGeminiB (api 2) with
            | .error _ => ⟨errRespB, [p1, pSel, p2]⟩
            | .ok stage2Output =>
              let p3 := stage3PromptB tone stage2Output
              match callGeminiB (api 3) with
              | .error _ => ⟨errRespB, [p1, pSel, p2, p3]⟩
              | .ok finalResult =>
                ⟨jsonResp (.resultObj finalResult) 200, [p1, pSel, p2, p3]⟩

/-- The 500 error response of the third paraphrase.js variant. -/
def errRespC : HttpResp := jsonResp (.errObj "Internal server error") 500

/-- The third `onRequestPost` of `src/functions/api/paraphrase.js`:
4 calls (variations / select with index fallback / refine / tone) over
the permissive `callGeminiC`. -/
def runC (body : ReqBody) (env : Env) (api : Nat → ApiResult) : RunResult :=
  if textInvalid body.text then ⟨jsonResp (.errObj "Invalid input text") 400, []⟩
  else if !toneAllowed (toneDefaulted body.tone) then ⟨jsonResp (.errObj "Invalid tone") 400, []⟩
  else if keyMissing env then ⟨jsonResp (.errObj "Missing Gemini API key") 500, []⟩
  else
    let text := textStr body.text
    let tone := toneStr (toneDefaulted body.tone)
    let p1 := stage1PromptC text
    match callGeminiC (api 0) with
    | .error _ => ⟨errRespC, [p1]⟩
    | .ok variationsRaw =>
      let variations := splitVariations variationsRaw
      if variations.length < 3 then ⟨errRespC, [p1]⟩
      else
        let p2 := stage2PromptC (variations[0]!) (variations[1]!) (variations[2]!)
        match callGeminiC (api 1) with
        | .error _ => ⟨errRespC, [p1, p2]⟩
        | .ok selectionRaw =>
          let selected := variations[selIndex (jsTrim selectionRaw)]!
          let p3 := stage3PromptC selected
          match callGeminiC (api 2) with
          | .error _ => ⟨errRespC, [p1, p2, p3]⟩
          | .ok sel3 =>
            let p4 := stage4PromptC tone sel3
            match callGeminiC (api 3) with
            | .error _ => ⟨errRespC, [p1, p2, p3, p4]⟩
            | .ok final4 => ⟨jsonResp (.resultObj final4) 200, [p1, p2, p3, p4]⟩

/-- The `onRequestPost` of `src/unnamed/part_000`: the robust `callGemini`
with the 4-stage pipeline variations / select / refine / tone. -/
def runD (body : ReqBody) (env : Env) (api : Nat → ApiResult) : RunResult :=
  if textInvalid body.text then ⟨jsonResp (.errObj "Invalid input text") 400, []⟩
  else if !toneAllowed (toneDefaulted body.tone) then ⟨jsonResp (.errObj "Invalid tone") 400, []⟩
  else if keyMissing env then
    ⟨jsonResp (.errObj "GEMINI_API_KEY is missing in environment variables") 500, []⟩
  else
    let text := textStr body.text
    let tone := toneStr (toneDefaulted body.tone)
    let p1 := stage1PromptD text
    match callGeminiRobust (api 0) with
    | .error e => ⟨failRobust e, [p1]⟩
    | .ok variationsRaw =>
      let variations := splitVariations variationsRaw
      if variations.length < 3 then
        ⟨failRobust "Gemini failed to generate 3 variations", [p1]⟩
      else
        let p2 := stage2PromptD (variations[0]!) (variations[1]!) (variations[2]!)
        match callGeminiRobust (api 1) with
        | .error e => ⟨failRobust e, [p1, p2]⟩
        | .ok selectionRaw =>
          let selected := variations[selIndex (jsTrim selectionRaw)]!
          let p3 := stage3PromptD selected
          match callGeminiRobust (api 2) with
          | .error e => ⟨failRobust e, [p1, p2, p3]⟩
          | .ok sel3 =>
            let p4 := stage4PromptD tone sel3
            match callGeminiRobust (api 3) with
            | .error e => ⟨failRobust e, [p1, p2, p3, p4]⟩
            | .ok final4 => ⟨jsonResp (.resultObj final4) 200, [p1, p2, p3, p4]⟩

/-- The `onRequestPost` of `src/unnamed/part_001`: the robust `callGemini`
with the 6-stage pipeline variations / select / pattern destroyer / tone /
final humanization / detector bypass. -/
def runE (body : ReqBody) (env : Env) (api : Nat → ApiResult) : RunResult :=
  if textInvalid body.text then ⟨jsonResp (.errObj "Invalid input text") 400, []⟩
  else if !toneAllowed (toneDefaulted body.tone) then ⟨jsonResp (.errObj "Invalid tone") 400, []⟩
  else if keyMissing env then
    ⟨jsonResp (.errObj "GEMINI_API_KEY is missing in environment variables") 500, []⟩
  else
    let text := textStr body.text
    let tone := toneStr (toneDefaulted body.tone)
    let p1 := stage1PromptE text
    match callGeminiRobust (api 0) with
    | .error e => ⟨failRobust e, [p1]⟩
    | .ok variationsRaw =>
      let variations := splitVariations variationsRaw
      if variations.length < 3 then
        ⟨failRobust "Gemini failed to generate 3 variations", [p1]⟩
      else
        let p2 := stage2PromptE (variations[0]!) (variations[1]!) (variations[2]!)
        match callGeminiRobust (api 1) with
        | .error e => ⟨failRobust e, [p1, p2]⟩
        | .ok selectionRaw =>
          let selected := variations[selIndex (jsTrim selectionRaw)]!
          let p3 := stage3PromptE selected
          match callGeminiRobust (api 2) with
          | .error e => ⟨failRobust e, [p1, p2, p3]⟩
          | .ok sel3 =>
            let p4 := stage4PromptE tone sel3
            match callGeminiRobust (api 3) with
            | .error e => ⟨failRobust e, [p1, p2, p3, p4]⟩
            | .ok final4 =>
              let p5 := stage5PromptE tone final4
              match callGeminiRobust (api 4) with
              | .error e => ⟨failRobust e, [p1, p2, p3, p4, p5]⟩
              | .ok final5 =>
                let p6 := stage6PromptE tone final5
                match callGeminiRobust (api 5) with
                | .error e => ⟨failRobust e, [p1, p2, p3, p4, p5, p6]⟩
                | .ok final6 =>
                  ⟨jsonResp (.resultObj final6) 200, [p1, p2, p3, p4, p5, p6]⟩

/-- Translation of `validateInput` of `src/server.js`. -/
def validateInputS : Option JsVal → Option String
  | some (.str s) =>
      if jsIsEmpty s then some "Text must be a non-empty string."
      else if (jsTrim s).length < 10 then some "Text must be at least 10 characters long."
      else none
  | _ => some "Text must be a non-empty string."

/-- Translation of `model.generateContent` of `src/server.js` seen through the SDK: it
either resolves with the reply text or rejects (any failure). -/
def generateContentS : ApiResult → Except String String
  | .ok c => .ok c
  | _ => .error "generation failed"

/-- The `app.post("/paraphrase")` handler of `src/server.js`: validate,
one model call, reply `{ paraphrased }` (the reply text trimmed). -/
def runS (body : ReqBody) (api : Nat → ApiResult) : RunResult :=
  match validateInputS body.text with
  | some msg => ⟨jsonResp (.errObj msg) 400, []⟩
  | none =>
    let sanitizedText := jsTrim (textStr body.text)
    let prompt := promptS sanitizedText
    match generateContentS (api 0) with
    | .error _ =>
      ⟨jsonResp (.errObj "An error occurred while paraphrasing the text.") 500, [prompt]⟩
    | .ok t => ⟨jsonResp (.paraphrasedObj (jsTrim t)) 200, [prompt]⟩


/-- The string `needle` occurs verbatim as a contiguous substring of `hay`. -/
def SubstrP (needle hay : String) : Prop := needle.data <:+: hay.data

instance (n h : String) : Decidable (SubstrP n h) := List.decidableInfix n.data h.data

theorem substrP_refl (n : String) : SubstrP n n := ⟨[], [], by simp⟩

theorem substrP_appendL (s : String) {n h : String} (hs : SubstrP n h) :
    SubstrP n (s ++ h) := by
  obtain ⟨u, v, huv⟩ := hs
  exact ⟨s.data ++ u, v, by simp [String.data_append, ← huv]⟩

theorem substrP_appendR (s : String) {n h : String} (hs : SubstrP n h) :
    SubstrP n (h ++ s) := by
  obtain ⟨u, v, huv⟩ := hs
  exact ⟨u, v ++ s.data, by simp [String.data_append, ← huv]⟩

theorem substr_stage1PromptA_text (text : String) : SubstrP text (stage1PromptA text) := by
  unfold stage1PromptA
  exact substrP_appendR _ (substrP_appendL _ (substrP_refl _))

theorem substr_stage2PromptA_v1 (v1 v2 v3 : String) : SubstrP v1 (stage2PromptA v1 v2 v3) := by
  unfold stage2PromptA
  exact substrP_appendR _ (substrP_appendR _ (substrP_appendR _ (substrP_appendR _ (substrP_appendR _ (substrP_appendL _ (substrP_refl _))))))

theorem substr_stage2PromptA_v2 (v1 v2 v3 : String) : SubstrP v2 (stage2PromptA v1 v2 v3) := by
  unfold stage2PromptA
  exact substrP_appendR _ (substrP_appendR _ (substrP_appendR _ (substrP_appendL _ (substrP_refl _))))

theorem substr_stage2PromptA_v3 (v1 v2 v3 : String) : SubstrP v3 (stage2PromptA v1 v2 v3) := by
  unfold stage2PromptA
  exact substrP_appendR _ (substrP_appendL _ (substrP_refl _))

theorem substr_stage3PromptA_sel (sel : String) : SubstrP sel (stage3PromptA sel) := by
  unfold stage3PromptA
  exact substrP_appendR _ (substrP_appendL _ (substrP_refl _))

theorem substr_stage4PromptA_sel (tone sel : String) : SubstrP sel (stage4PromptA tone sel) := by
  unfold stage4PromptA
  exact substrP_appendR _ (substrP_appendL _ (substrP_refl _))

theorem substr_stage5PromptA_txt (tone txt : String) : SubstrP txt (stage5PromptA tone txt) := by
  unfold stage5PromptA
  exact substrP_appendR _ (substrP_appendL _ (substrP_refl _))

theorem substr_stage1PromptB_text (text : String) : SubstrP text (stage1PromptB text) := by
  unfold stage1PromptB
  exact substrP_appendR _ (substrP_appendL _ (substrP_refl _))

theorem substr_selectPromptB_text (text v1 v2 v3 : String) : SubstrP text (selectPromptB text v1 v2 v3) := by
  unfold selectPromptB
  exact substrP_appendR _ (substrP_appendR _ (substrP_appendR _ (substrP_appendR _ (substrP_appendR _ (substrP_appendR _ (substrP_appendR _ (substrP_appendL _ (substrP_refl _))))))))

theorem substr_selectPromptB_v1 (text v1 v2 v3 : String) : SubstrP v1 (selectPromptB text v1 v2 v3) := by
  unfold selectPromptB
  exact substrP_appendR _ (substrP_appendR _ (substrP_appendR _ (substrP_appendR _ (substrP_appendR _ (substrP_appendL _ (substrP_refl _))))))

theorem substr_selectPromptB_v2 (text v1 v2 v3 : String) : SubstrP v2 (selectPromptB text v1 v2 v3) := by
  unfold selectPromptB
  exact substrP_appendR _ (substrP_appendR _ (substrP_appendR _ (substrP_appendL _ (substrP_refl _))))

theorem substr_selectPromptB_v3 (text v1 v2 v3 : String) : SubstrP v3 (selectPromptB text v1 v2 v3) := by
  unfold selectPromptB
  exact substrP_appendR _ (substrP_appendL _ (substrP_refl _))

theorem substr_stage2PromptB_sel (sel : String) : SubstrP sel (stage2PromptB sel) := by
  unfold stage2PromptB
  exact substrP_appendR _ (substrP_appendL _ (substrP_refl _))

theorem substr_stage3PromptB_txt (tone txt : String) : SubstrP txt (stage3PromptB tone txt) := by
  unfold stage3PromptB
  exact substrP_appendR _ (substrP_appendL _ (substrP_refl _))

theorem substr_stage1PromptC_text (text : String) : SubstrP text (stage1PromptC text) := by
  unfold stage1PromptC
  exact substrP_appendR _ (substrP_appendL _ (substrP_refl _))

theorem substr_stage2PromptC_v1 (v1 v2 v3 : String) : SubstrP v1 (stage2PromptC v1 v2 v3) := by
  unfold stage2PromptC
  exact substrP_appendR _ (substrP_appendR _ (substrP_appendR _ (substrP_appendR _ (substrP_appendR _ (substrP_appendL _ (substrP_refl _))))))

theorem substr_stage2PromptC_v2 (v1 v2 v3 : String) : SubstrP v2 (stage2PromptC v1 v2 v3) := by
  unfold stage2PromptC
  exact substrP_appendR _ (substrP_appendR _ (substrP_appendR _ (substrP_appendL _ (substrP_refl _))))

theorem substr_stage2PromptC_v3 (v1 v2 v3 : String) : SubstrP v3 (stage2PromptC v1 v2 v3) := by
  unfold stage2PromptC
  exact substrP_appendR _ (substrP_appendL _ (substrP_refl _))

theorem substr_stage3PromptC_sel (sel : String) : SubstrP sel (stage3PromptC sel) := by
  unfold stage3PromptC
  exact substrP_appendR _ (substrP_appendL _ (substrP_refl _))

theorem substr_stage4PromptC_sel (tone sel : String) : SubstrP sel (stage4PromptC tone sel) := by
  unfold stage4PromptC
  exact substrP_appendR _ (substrP_appendL _ (substrP_refl _))

theorem substr_stage1PromptD_text (text : String) : SubstrP text (stage1PromptD text) := by
  unfold stage1PromptD
  exact substrP_appendR _ (substrP_appendL _ (substrP_refl _))

theorem substr_stage2PromptD_v1 (v1 v2 v3 : String) : SubstrP v1 (stage2PromptD v1 v2 v3) := by
  unfold stage2PromptD
  exact substrP_appendR _ (substrP_appendR _ (substrP_appendR _ (substrP_appendR _ (substrP_appendR _ (substrP_appendL _ (substrP_refl _))))))

theorem substr_stage2PromptD_v2 (v1 v2 v3 : String) : SubstrP v2 (stage2PromptD v1 v2 v3) := by
  unfold stage2PromptD
  exact substrP_appendR _ (substrP_appendR _ (substrP_appendR _ (substrP_appendL _ (substrP_refl _))))

theorem substr_stage2PromptD_v3 (v1 v2 v3 : String) : SubstrP v3 (stage2PromptD v1 v2 v3) := by
  unfold stage2PromptD
  exact substrP_appendR _ (substrP_appendL _ (substrP_refl _))

theorem substr_stage3PromptD_sel (sel : String) : SubstrP sel (stage3PromptD sel) := by
  unfold stage3PromptD
  exact substrP_appendR _ (substrP_appendL _ (substrP_refl _))

theorem substr_stage4PromptD_sel (tone sel : String) : SubstrP sel (stage4PromptD tone sel) := by
  unfold stage4PromptD
  exact substrP_appendR _ (substrP_appendL _ (substrP_refl _))

theorem substr_stage1PromptE_text (text : String) : SubstrP text (stage1PromptE text) := by
  unfold stage1PromptE
  exact substrP_appendR _ (substrP_appendL _ (substrP_refl _))

theorem substr_stage2PromptE_v1 (v1 v2 v3 : String) : SubstrP v1 (stage2PromptE v1 v2 v3) := by
  unfold stage2PromptE
  exact substrP_appendR _ (substrP_appendR _ (substrP_appendR _ (substrP_appendR _ (substrP_appendR _ (substrP_appendL _ (substrP_refl _))))))

theorem substr_stage2PromptE_v2 (v1 v2 v3 : String) : SubstrP v2 (stage2PromptE v1 v2 v3) := by
  unfold stage2PromptE
  exact substrP_appendR _ (substrP_appendR _ (substrP_appendR _ (substrP_appendL _ (substrP_refl _))))

theorem substr_stage2PromptE_v3 (v1 v2 v3 : String) : SubstrP v3 (stage2PromptE v1 v2 v3) := by
  unfold stage2PromptE
  exact substrP_appendR _ (substrP_appendL _ (substrP_refl _))

theorem substr_stage3PromptE_sel (sel : String) : SubstrP sel (stage3PromptE sel) := by
  unfold stage3PromptE
  exact substrP_appendR _ (substrP_appendL _ (substrP_refl _))

theorem substr_stage4PromptE_sel (tone sel : String) : SubstrP sel (stage4PromptE tone sel) := by
  unfold stage4PromptE
  exact substrP_appendR _ (substrP_appendL _ (substrP_refl _))

theorem substr_stage5PromptE_txt (tone txt : String) : SubstrP txt (stage5PromptE tone txt) := by
  unfold stage5PromptE
  exact substrP_appendR _ (substrP_appendL _ (substrP_refl _))

theorem substr_stage6PromptE_txt (tone txt : String) : SubstrP txt (stage6PromptE tone txt) := by
  unfold stage6PromptE
  exact substrP_appendR _ (substrP_appendL _ (substrP_refl _))

theorem substr_promptS_text (text : String) : SubstrP text (promptS text) := by
  unfold promptS
  exact substrP_appendL _ (substrP_refl _)

theorem runA_ct (body : ReqBody) (env : Env) (api : Nat → ApiResult) :
    (runA body env api).resp.contentType = "application/json" := by
  unfold runA
  dsimp only
  repeat' (first | rfl | split)

theorem runA_200 (body : ReqBody) (env : Env) (api : Nat → ApiResult)
    (h : (runA body env api).resp.status = 200) :
    (runA body env api).prompts.length = 5 ∧
      ∃ out, callGeminiRobust (api 4) = .ok out ∧
        (runA body env api).resp.body = .resultObj out := by
  unfold runA at h ⊢
  dsimp only at h ⊢
  repeat' split at h <;> try simp_all [jsonResp, failRobust]
  all_goals (split <;> try simp_all [jsonResp, failRobust])
  all_goals omega

theorem runA_success (body : ReqBody) (env : Env) (api : Nat → ApiResult)
    (htext : textInvalid body.text = false)
    (htone : toneAllowed (toneDefaulted body.tone) = true)
    (hkey : keyMissing env = false)
    (v1 v2 v3 v4 v5 : String)
    (h1 : callGeminiRobust (api 0) = .ok v1) (hlen : 3 ≤ (splitVariations v1).length)
    (h2 : callGeminiRobust (api 1) = .ok v2)
    (h3 : callGeminiRobust (api 2) = .ok v3)
    (h4 : callGeminiRobust (api 3) = .ok v4)
    (h5 : callGeminiRobust (api 4) = .ok v5) :
    (runA body env api).resp = jsonResp (.resultObj v5) 200 ∧
      (runA body env api).prompts =
      [stage1PromptA (textStr body.text),
       stage2PromptA ((splitVariations v1)[0]!) ((splitVariations v1)[1]!) ((splitVariations v1)[2]!),
       stage3PromptA ((splitVariations v1)[selIndex (jsTrim v2)]!),
       stage4PromptA (toneStr (toneDefaulted body.tone)) v3,
       stage5PromptA (toneStr (toneDefaulted body.tone)) v4] := by
  unfold runA
  simp [htext, htone, hkey, h1, h2, h3, h4, h5, Nat.not_lt.mpr hlen]

theorem runA_len_le (body : ReqBody) (env : Env) (api : Nat → ApiResult) :
    (runA body env api).prompts.length ≤ 5 := by
  unfold runA
  dsimp only
  repeat' split
  all_goals simp

theorem runA_nonlast_ok (body : ReqBody) (env : Env) (api : Nat → ApiResult) :
    ∀ k, k + 1 < (runA body env api).prompts.length →
      ∃ o, callGeminiRobust (api k) = .ok o := by
  unfold runA
  dsimp only
  repeat' split
  all_goals intro k hk
  all_goals simp only [List.length_cons, List.length_nil] at hk
  all_goals (rcases k with _ | _ | _ | _ | _ | k <;>
    first
      | exact ⟨_, by assumption⟩
      | (exfalso; omega))

theorem runA_400 (body : ReqBody) (env : Env) (api : Nat → ApiResult)
    (h : (runA body env api).resp.status = 400) :
    (runA body env api).prompts = [] := by
  unfold runA at h ⊢
  dsimp only at h ⊢
  repeat' split at h <;> try simp_all [jsonResp, failRobust]
  all_goals (split <;> try simp_all [jsonResp, failRobust])
  all_goals omega

theorem runA_shape (body : ReqBody) (env : Env) (api : Nat → ApiResult) :
    (runA body env api).resp.status = 200 ∨
      (((runA body env api).resp.status = 400 ∨ (runA body env api).resp.status = 500) ∧
        (runA body env api).resp.body.isError = true) := by
  unfold runA
  dsimp only
  repeat' split
  all_goals first
    | exact Or.inl rfl
    | exact Or.inr ⟨Or.inl rfl, rfl⟩
    | exact Or.inr ⟨Or.inr rfl, rfl⟩

theorem runA_fail500 (body : ReqBody) (env : Env) (api : Nat → ApiResult)
    (k : Nat) (e : String)
    (hke : callGeminiRobust (api k) = .error e)
    (hk : k < (runA body env api).prompts.length) :
    (runA body env api).resp.status = 500 ∧
      (runA body env api).resp.body.isError = true := by
  rcases runA_shape body env api with h200 | ⟨h45, herr⟩
  · exfalso
    obtain ⟨hlen, out, hout, -⟩ := runA_200 body env api h200
    by_cases hlt : k + 1 < (runA body env api).prompts.length
    · obtain ⟨o, ho⟩ := runA_nonlast_ok body env api k hlt
      rw [ho] at hke
      exact Except.noConfusion hke
    · have hklast : k = 4 := by omega
      subst hklast
      rw [hout] at hke
      exact Except.noConfusion hke
  · rcases h45 with h400 | h500
    · exfalso
      have h0 := runA_400 body env api h400
      rw [h0] at hk
      exact absurd hk (by simp)
    · exact ⟨h500, herr⟩


theorem runA_keymiss (body : ReqBody) (env : Env) (api : Nat → ApiResult)
    (htext : textInvalid body.text = false)
    (htone : toneAllowed (toneDefaulted body.tone) = true)
    (hkey : keyMissing env = true) :
    runA body env api =
      ⟨jsonResp (.errObj "GEMINI_API_KEY is missing in environment variables") 500, []⟩ := by
  unfold runA
  simp [htext, htone, hkey]

theorem runA_agree (body : ReqBody) (env : Env) (a b : Nat → ApiResult)
    (h : ∀ k, k < 6 → a k = b k) :
    runA body env a = runA body env b := by
  unfold runA
  rw [h 0 (by omega), h 1 (by omega), h 2 (by omega), h 3 (by omega), h 4 (by omega)]


theorem runD_ct (body : ReqBody) (env : Env) (api : Nat → ApiResult) :
    (runD body env api).resp.contentType = "application/json" := by
  unfold runD
  dsimp only
  repeat' (first | rfl | split)

theorem runD_200 (body : ReqBody) (env : Env) (api : Nat → ApiResult)
    (h : (runD body env api).resp.status = 200) :
    (runD body env api).prompts.length = 4 ∧
      ∃ out, callGeminiRobust (api 3) = .ok out ∧
        (runD body env api).resp.body = .resultObj out := by
  unfold runD at h ⊢
  dsimp only at h ⊢
  repeat' split at h <;> try simp_all [jsonResp, failRobust]
  all_goals (split <;> try simp_all [jsonResp, failRobust])
  all_goals omega

theorem runD_success (body : ReqBody) (env : Env) (api : Nat → ApiResult)
    (htext : textInvalid body.text = false)
    (htone : toneAllowed (toneDefaulted body.tone) = true)
    (hkey : keyMissing env = false)
    (v1 v2 v3 v4 : String)
    (h1 : callGeminiRobust (api 0) = .ok v1) (hlen : 3 ≤ (splitVariations v1).length)
    (h2 : callGeminiRobust (api 1) = .ok v2)
    (h3 : callGeminiRobust (api 2) = .ok v3)
    (h4 : callGeminiRobust (api 3) = .ok v4) :
    (runD body env api).resp = jsonResp (.resultObj v4) 200 ∧
      (runD body env api).prompts =
      [stage1PromptD (textStr body.text),
       stage2PromptD ((splitVariations v1)[0]!) ((splitVariations v1)[1]!) ((splitVariations v1)[2]!),
       stage3PromptD ((splitVariations v1)[selIndex (jsTrim v2)]!),
       stage4PromptD (toneStr (toneDefaulted body.tone)) v3] := by
  unfold runD
  simp [htext, htone, hkey, h1, h2, h3, h4, Nat.not_lt.mpr hlen]

theorem runD_len_le (body : ReqBody) (env : Env) (api : Nat → ApiResult) :
    (runD body env api).prompts.length ≤ 4 := by
  unfold runD
  dsimp only
  repeat' split
  all_goals simp

theorem runD_nonlast_ok (body : ReqBody) (env : Env) (api : Nat → ApiResult) :
    ∀ k, k + 1 < (runD body env api).prompts.length →
      ∃ o, callGeminiRobust (api k) = .ok o := by
  unfold runD
  dsimp only
  repeat' split
  all_goals intro k hk
  all_goals simp only [List.length_cons, List.length_nil] at hk
  all_goals (rcases k with _ | _ | _ | _ | _ | k <;>
    first
      | exact ⟨_, by assumption⟩
      | (exfalso; omega))

theorem runD_400 (body : ReqBody) (env : Env) (api : Nat → ApiResult)
    (h : (runD body env api).resp.status = 400) :
    (runD body env api).prompts = [] := by
  unfold runD at h ⊢
  dsimp only at h ⊢
  repeat' split at h <;> try simp_all [jsonResp, failRobust]
  all_goals (split <;> try simp_all [jsonResp, failRobust])
  all_goals omega

theorem runD_shape (body : ReqBody) (env : Env) (api : Nat → ApiResult) :
    (runD body env api).resp.status = 200 ∨
      (((runD body env api).resp.status = 400 ∨ (runD body env api).resp.status = 500) ∧
        (runD body env api).resp.body.isError = true) := by
  unfold runD
  dsimp only
  repeat' split
  all_goals first
    | exact Or.inl rfl
    | exact Or.inr ⟨Or.inl rfl, rfl⟩
    | exact Or.inr ⟨Or.inr rfl, rfl⟩

theorem runD_fail500 (body : ReqBody) (env : Env) (api : Nat → ApiResult)
    (k : Nat) (e : String)
    (hke : callGeminiRobust (api k) = .error e)
    (hk : k < (runD body env api).prompts.length) :
    (runD body env api).resp.status = 500 ∧
      (runD body env api).resp.body.isError = true := by
  rcases runD_shape body env api with h200 | ⟨h45, herr⟩
  · exfalso
    obtain ⟨hlen, out, hout, -⟩ := runD_200 body env api h200
    by_cases hlt : k + 1 < (runD body env api).prompts.length
    · obtain ⟨o, ho⟩ := runD_nonlast_ok body env api k hlt
      rw [ho] at hke
      exact Except.noConfusion hke
    · have hklast : k = 3 := by omega
      subst hklast
      rw [hout] at hke
      exact Except.noConfusion hke
  · rcases h45 with h400 | h500
    · exfalso
      have h0 := runD_400 body env api h400
      rw [h0] at hk
      exact absurd hk (by simp)
    · exact ⟨h500, herr⟩


theorem runD_keymiss (body : ReqBody) (env : Env) (api : Nat → ApiResult)
    (htext : textInvalid body.text = false)
    (htone : toneAllowed (toneDefaulted body.tone) = true)
    (hkey : keyMissing env = true) :
    runD body env api =
      ⟨jsonResp (.errObj "GEMINI_API_KEY is missing in environment variables") 500, []⟩ := by
  unfold runD
  simp [htext, htone, hkey]

theorem runD_agree (body : ReqBody) (env : Env) (a b : Nat → ApiResult)
    (h : ∀ k, k < 6 → a k = b k) :
    runD body env a = runD body env b := by
  unfold runD
  rw [h 0 (by omega), h 1 (by omega), h 2 (by omega), h 3 (by omega)]


theorem runE_ct (body : ReqBody) (env : Env) (api : Nat → ApiResult) :
    (runE body env api).resp.contentType = "application/json" := by
  unfold runE
  dsimp only
  repeat' (first | rfl | split)

theorem runE_200 (body : ReqBody) (env : Env) (api : Nat → ApiResult)
    (h : (runE body env api).resp.status = 200) :
    (runE body env api).prompts.length = 6 ∧
      ∃ out, callGeminiRobust (api 5) = .ok out ∧
        (runE body env api).resp.body = .resultObj out := by
  unfold runE at h ⊢
  dsimp only at h ⊢
  repeat' split at h <;> try simp_all [jsonResp, failRobust]
  all_goals (split <;> try simp_all [jsonResp, failRobust])
  all_goals omega

theorem runE_success (body : ReqBody) (env : Env) (api : Nat → ApiResult)
    (htext : textInvalid body.text = false)
    (htone : toneAllowed (toneDefaulted body.tone) = true)
    (hkey : keyMissing env = false)
    (v1 v2 v3 v4 v5 v6 : String)
    (h1 : callGeminiRobust (api 0) = .ok v1) (hlen : 3 ≤ (splitVariations v1).length)
    (h2 : callGeminiRobust (api 1) = .ok v2)
    (h3 : callGeminiRobust (api 2) = .ok v3)
    (h4 : callGeminiRobust (api 3) = .ok v4)
    (h5 : callGeminiRobust (api 4) = .ok v5)
    (h6 : callGeminiRobust (api 5) = .ok v6) :
    (runE body env api).resp = jsonResp (.resultObj v6) 200 ∧
      (runE body env api).prompts =
      [stage1PromptE (textStr body.text),
       stage2PromptE ((splitVariations v1)[0]!) ((splitVariations v1)[1]!) ((splitVariations v1)[2]!),
       stage3PromptE ((splitVariations v1)[selIndex (jsTrim v2)]!),
       stage4PromptE (toneStr (toneDefaulted body.tone)) v3,
       stage5PromptE (toneStr (toneDefaulted body.tone)) v4,
       stage6PromptE (toneStr (toneDefaulted body.tone)) v5] := by
  unfold runE
  simp [htext, htone, hkey, h1, h2, h3, h4, h5, h6, Nat.not_lt.mpr hlen]

theorem runE_len_le (body : ReqBody) (env : Env) (api : Nat → ApiResult) :
    (runE body env api).prompts.length ≤ 6 := by
  unfold runE
  dsimp only
  repeat' split
  all_goals simp

theorem runE_nonlast_ok (body : ReqBody) (env : Env) (api : Nat → ApiResult) :
    ∀ k, k + 1 < (runE body env api).prompts.length →
      ∃ o, callGeminiRobust (api k) = .ok o := by
  unfold runE
  dsimp only
  repeat' split
  all_goals intro k hk
  all_goals simp only [List.length_cons, List.length_nil] at hk
  all_goals (rcases k with _ | _ | _ | _ | _ | k <;>
    first
      | exact ⟨_, by assumption⟩
      | (exfalso; omega))

theorem runE_400 (body : ReqBody) (env : Env) (api : Nat → ApiResult)
    (h : (runE body env api).resp.status = 400) :
    (runE body env api).prompts = [] := by
  unfold runE at h ⊢
  dsimp only at h ⊢
  repeat' split at h <;> try simp_all [jsonResp, failRobust]
  all_goals (split <;> try simp_all [jsonResp, failRobust])
  all_goals omega

theorem runE_shape (body : ReqBody) (env : Env) (api : Nat → ApiResult) :
    (runE body env api).resp.status = 200 ∨
      (((runE body env api).resp.status = 400 ∨ (runE body env api).resp.status = 500) ∧
        (runE body env api).resp.body.isError = true) := by
  unfold runE
  dsimp only
  repeat' split
  all_goals first
    | exact Or.inl rfl
    | exact Or.inr ⟨Or.inl rfl, rfl⟩
    | exact Or.inr ⟨Or.inr rfl, rfl⟩

theorem runE_fail500 (body : ReqBody) (env : Env) (api : Nat → ApiResult)
    (k : Nat) (e : String)
    (hke : callGeminiRobust (api k) = .error e)
    (hk : k < (runE body env api).prompts.length) :
    (runE body env api).resp.status = 500 ∧
      (runE body env api).resp.body.isError = true := by
  rcases runE_shape body env api with h200 | ⟨h45, herr⟩
  · exfalso
    obtain ⟨hlen, out, hout, -⟩ := runE_200 body env api h200
    by_cases hlt : k + 1 < (runE body env api).prompts.length
    · obtain ⟨o, ho⟩ := runE_nonlast_ok body env api k hlt
      rw [ho] at hke
      exact Except.noConfusion hke
    · have hklast : k = 5 := by omega
      subst hklast
      rw [hout] at hke
      exact Except.noConfusion hke
  · rcases h45 with h400 | h500
    · exfalso
      have h0 := runE_400 body env api h400
      rw [h0] at hk
      exact absurd hk (by simp)
    · exact ⟨h500, herr⟩


theorem runE_keymiss (body : ReqBody) (env : Env) (api : Nat → ApiResult)
    (htext : textInvalid body.text = false)
    (htone : toneAllowed (toneDefaulted body.tone) = true)
    (hkey : keyMissing env = true) :
    runE body env api =
      ⟨jsonResp (.errObj "GEMINI_API_KEY is missing in environment variables") 500, []⟩ := by
  unfold runE
  simp [htext, htone, hkey]

theorem runE_agree (body : ReqBody) (env : Env) (a b : Nat → ApiResult)
    (h : ∀ k, k < 6 → a k = b k) :
    runE body env a = runE body env b := by
  unfold runE
  rw [h 0 (by omega), h 1 (by omega), h 2 (by omega), h 3 (by omega), h 4 (by omega), h 5 (by omega)]

theorem runB_ct (body : ReqBody) (env : Env) (api : Nat → ApiResult) :
    (runB body env api).resp.contentType = "application/json" := by
  unfold runB
  dsimp only
  repeat' (first | rfl | split)

theorem runB_200 (body : ReqBody) (env : Env) (api : Nat → ApiResult)
    (h : (runB body env api).resp.status = 200) :
    (runB body env api).prompts.length = 4 ∧
      ∃ out, callGeminiB (api 3) = .ok out ∧
        (runB body env api).resp.body = .resultObj out := by
  unfold runB at h ⊢
  dsimp only at h ⊢
  repeat' split at h <;> try simp_all [jsonResp, errRespB]
  all_goals (split <;> try simp_all [jsonResp, errRespB])
  all_goals omega

theorem runB_success (body : ReqBody) (env : Env) (api : Nat → ApiResult)
    (htext : textInvalid body.text = false)
    (htone : (match body.tone with | some v => toneAllowed v | none => false) = true)
    (hkey : keyMissing env = false)
    (w1 w2 w3 w4 sel : String)
    (h1 : callGeminiB (api 0) = .ok w1)
    (hv1 : jsIsEmpty (findNumbered "1." (linesOf w1)) = false)
    (hv2 : jsIsEmpty (findNumbered "2." (linesOf w1)) = false)
    (hv3 : jsIsEmpty (findNumbered "3." (linesOf w1)) = false)
    (h2 : callGeminiB (api 1) = .ok w2)
    (hsel : selectVarB (jsParseInt (jsTrim w2)) (findNumbered "1." (linesOf w1))
        (findNumbered "2." (linesOf w1)) (findNumbered "3." (linesOf w1)) = some sel)
    (h3 : callGeminiB (api 2) = .ok w3)
    (h4 : callGeminiB (api 3) = .ok w4) :
    (runB body env api).resp = jsonResp (.resultObj w4) 200 ∧
      (runB body env api).prompts =
      [stage1PromptB (textStr body.text),
       selectPromptB (textStr body.text) (findNumbered "1." (linesOf w1))
         (findNumbered "2." (linesOf w1)) (findNumbered "3." (linesOf w1)),
       stage2PromptB sel,
       stage3PromptB (toneStr (body.tone.getD (.str ""))) w3] := by
  unfold runB
  simp [htext, htone, hkey, h1, hv1, hv2, hv3, h2, hsel, h3, h4]

theorem runB_len_le (body : ReqBody) (env : Env) (api : Nat → ApiResult) :
    (runB body env api).prompts.length ≤ 4 := by
  unfold runB
  dsimp only
  repeat' split
  all_goals simp

theorem runB_nonlast_ok (body : ReqBody) (env : Env) (api : Nat → ApiResult) :
    ∀ k, k + 1 < (runB body env api).prompts.length →
      ∃ o, callGeminiB (api k) = .ok o := by
  unfold runB
  dsimp only
  repeat' split
  all_goals intro k hk
  all_goals simp only [List.length_cons, List.length_nil] at hk
  all_goals (rcases k with _ | _ | _ | _ | _ | k <;>
    first
      | exact ⟨_, by assumption⟩
      | (exfalso; omega))

theorem runB_400 (body : ReqBody) (env : Env) (api : Nat → ApiResult)
    (h : (runB body env api).resp.status = 400) :
    (runB body env api).prompts = [] := by
  unfold runB at h ⊢
  dsimp only at h ⊢
  repeat' split at h <;> try simp_all [jsonResp, errRespB]
  all_goals (split <;> try simp_all [jsonResp, errRespB])
  all_goals omega

theorem runB_shape (body : ReqBody) (env : Env) (api : Nat → ApiResult) :
    (runB body env api).resp.status = 200 ∨
      (((runB body env api).resp.status = 400 ∨ (runB body env api).resp.status = 500) ∧
        (runB body env api).resp.body.isError = true) := by
  unfold runB
  dsimp only
  repeat' split
  all_goals first
    | exact Or.inl rfl
    | exact Or.inr ⟨Or.inl rfl, rfl⟩
    | exact Or.inr ⟨Or.inr rfl, rfl⟩

theorem runB_fail500 (body : ReqBody) (env : Env) (api : Nat → ApiResult)
    (k : Nat) (e : String)
    (hke : callGeminiB (api k) = .error e)
    (hk : k < (runB body env api).prompts.length) :
    (runB body env api).resp.status = 500 ∧
      (runB body env api).resp.body.isError = true := by
  rcases runB_shape body env api with h200 | ⟨h45, herr⟩
  · exfalso
    obtain ⟨hlen, out, hout, -⟩ := runB_200 body env api h200
    by_cases hlt : k + 1 < (runB body env api).prompts.length
    · obtain ⟨o, ho⟩ := runB_nonlast_ok body env api k hlt
      rw [ho] at hke
      exact Except.noConfusion hke
    · have hklast : k = 3 := by omega
      subst hklast
      rw [hout] at hke
      exact Except.noConfusion hke
  · rcases h45 with h400 | h500
    · exfalso
      have h0 := runB_400 body env api h400
      rw [h0] at hk
      exact absurd hk (by simp)
    · exact ⟨h500, herr⟩

theorem runB_keymiss (body : ReqBody) (env : Env) (api : Nat → ApiResult)
    (htext : textInvalid body.text = false)
    (htone : (match body.tone with | some v => toneAllowed v | none => false) = true)
    (hkey : keyMissing env = true) :
    runB body env api = ⟨jsonResp (.errObj "Server configuration error") 500, []⟩ := by
  unfold runB
  simp [htext, htone, hkey]

theorem runB_agree (body : ReqBody) (env : Env) (a b : Nat → ApiResult)
    (h : ∀ k, k < 6 → a k = b k) :
    runB body env a = runB body env b := by
  unfold runB
  rw [h 0 (by omega), h 1 (by omega), h 2 (by omega), h 3 (by omega)]

theorem runC_ct (body : ReqBody) (env : Env) (api : Nat → ApiResult) :
    (runC body env api).resp.contentType = "application/json" := by
  unfold runC
  dsimp only
  repeat' (first | rfl | split)

theorem runC_200 (body : ReqBody) (env : Env) (api : Nat → ApiResult)
    (h : (runC body env api).resp.status = 200) :
    (runC body env api).prompts.length = 4 ∧
      ∃ out, callGeminiC (api 3) = .ok out ∧
        (runC body env api).resp.body = .resultObj out := by
  unfold runC at h ⊢
  dsimp only at h ⊢
  repeat' split at h <;> try simp_all [jsonResp, errRespC]
  all_goals (split <;> try simp_all [jsonResp, errRespC])
  all_goals omega

theorem runC_success (body : ReqBody) (env : Env) (api : Nat → ApiResult)
    (htext : textInvalid body.text = false)
    (htone : toneAllowed (toneDefaulted body.tone) = true)
    (hkey : keyMissing env = false)
    (v1 v2 v3 v4 : String)
    (h1 : callGeminiC (api 0) = .ok v1) (hlen : 3 ≤ (splitVariations v1).length)
    (h2 : callGeminiC (api 1) = .ok v2)
    (h3 : callGeminiC (api 2) = .ok v3)
    (h4 : callGeminiC (api 3) = .ok v4) :
    (runC body env api).resp = jsonResp (.resultObj v4) 200 ∧
      (runC body env api).prompts =
      [stage1PromptC (textStr body.text),
       stage2PromptC ((splitVariations v1)[0]!) ((splitVariations v1)[1]!) ((splitVariations v1)[2]!),
       stage3PromptC ((splitVariations v1)[selIndex (jsTrim v2)]!),
       stage4PromptC (toneStr (toneDefaulted body.tone)) v3] := by
  unfold runC
  simp [htext, htone, hkey, h1, h2, h3, h4, Nat.not_lt.mpr hlen]

theorem runC_len_le (body : ReqBody) (env : Env) (api : Nat → ApiResult) :
    (runC body env api).prompts.length ≤ 4 := by
  unfold runC
  dsimp only
  repeat' split
  all_goals simp

theorem runC_nonlast_ok (body : ReqBody) (env : Env) (api : Nat → ApiResult) :
    ∀ k, k + 1 < (runC body env api).prompts.length →
      ∃ o, callGeminiC (api k) = .ok o := by
  unfold runC
  dsimp only
  repeat' split
  all_goals intro k hk
  all_goals simp only [List.length_cons, List.length_nil] at hk
  all_goals (rcases k with _ | _ | _ | _ | _ | k <;>
    first
      | exact ⟨_, by assumption⟩
      | (exfalso; omega))

theorem runC_400 (body : ReqBody) (env : Env) (api : Nat → ApiResult)
    (h : (runC body env api).resp.status = 400) :
    (runC body env api).prompts = [] := by
  unfold runC at h ⊢
  dsimp only at h ⊢
  repeat' split at h <;> try simp_all [jsonResp, errRespC]
  all_goals (split <;> try simp_all [jsonResp, errRespC])
  all_goals omega

theorem runC_shape (body : ReqBody) (env : Env) (api : Nat → ApiResult) :
    (runC body env api).resp.status = 200 ∨
      (((runC body env api).resp.status = 400 ∨ (runC body env api).resp.status = 500) ∧
        (runC body env api).resp.body.isError = true) := by
  unfold runC
  dsimp only
  repeat' split
  all_goals first
    | exact Or.inl rfl
    | exact Or.inr ⟨Or.inl rfl, rfl⟩
    | exact Or.inr ⟨Or.inr rfl, rfl⟩

theorem runC_fail500 (body : ReqBody) (env : Env) (api : Nat → ApiResult)
    (k : Nat) (e : String)
    (hke : callGeminiC (api k) = .error e)
    (hk : k < (runC body env api).prompts.length) :
    (runC body env api).resp.status = 500 ∧
      (runC body env api).resp.body.isError = true := by
  rcases runC_shape body env api with h200 | ⟨h45, herr⟩
  · exfalso
    obtain ⟨hlen, out, hout, -⟩ := runC_200 body env api h200
    by_cases hlt : k + 1 < (runC body env api).prompts.length
    · obtain ⟨o, ho⟩ := runC_nonlast_ok body env api k hlt
      rw [ho] at hke
      exact Except.noConfusion hke
    · have hklast : k = 3 := by omega
      subst hklast
      rw [hout] at hke
      exact Except.noConfusion hke
  · rcases h45 with h400 | h500
    · exfalso
      have h0 := runC_400 body env api h400
      rw [h0] at hk
      exact absurd hk (by simp)
    · exact ⟨h500, herr⟩

theorem runC_keymiss (body : ReqBody) (env : Env) (api : Nat → ApiResult)
    (htext : textInvalid body.text = false)
    (htone : toneAllowed (toneDefaulted body.tone) = true)
    (hkey : keyMissing env = true) :
    runC body env api = ⟨jsonResp (.errObj "Missing Gemini API key") 500, []⟩ := by
  unfold runC
  simp [htext, htone, hkey]

theorem runC_agree (body : ReqBody) (env : Env) (a b : Nat → ApiResult)
    (h : ∀ k, k < 6 → a k = b k) :
    runC body env a = runC body env b := by
  unfold runC
  rw [h 0 (by omega), h 1 (by omega), h 2 (by omega), h 3 (by omega)]

theorem runS_ct (body : ReqBody) (api : Nat → ApiResult) :
    (runS body api).resp.contentType = "application/json" := by
  unfold runS
  dsimp only
  repeat' (first | rfl | split)

theorem runS_200 (body : ReqBody) (api : Nat → ApiResult)
    (h : (runS body api).resp.status = 200) :
    (runS body api).prompts.length = 1 ∧
      ∃ out, generateContentS (api 0) = .ok out ∧
        (runS body api).resp.body = .paraphrasedObj (jsTrim out) := by
  unfold runS at h ⊢
  dsimp only at h ⊢
  repeat' split at h <;> try simp_all [jsonResp]

theorem runS_success (body : ReqBody) (api : Nat → ApiResult)
    (hval : validateInputS body.text = none)
    (t : String) (h1 : generateContentS (api 0) = .ok t) :
    (runS body api).resp = jsonResp (.paraphrasedObj (jsTrim t)) 200 ∧
      (runS body api).prompts = [promptS (jsTrim (textStr body.text))] := by
  unfold runS
  simp [hval, h1]

theorem runS_len_le (body : ReqBody) (api : Nat → ApiResult) :
    (runS body api).prompts.length ≤ 1 := by
  unfold runS
  dsimp only
  repeat' split
  all_goals simp

theorem runS_400 (body : ReqBody) (api : Nat → ApiResult)
    (h : (runS body api).resp.status = 400) :
    (runS body api).prompts = [] := by
  unfold runS at h ⊢
  dsimp only at h ⊢
  repeat' split at h <;> try simp_all [jsonResp]

theorem runS_shape (body : ReqBody) (api : Nat → ApiResult) :
    (runS body api).resp.status = 200 ∨
      (((runS body api).resp.status = 400 ∨ (runS body api).resp.status = 500) ∧
        (runS body api).resp.body.isError = true) := by
  unfold runS
  dsimp only
  repeat' split
  all_goals first
    | exact Or.inl rfl
    | exact Or.inr ⟨Or.inl rfl, rfl⟩
    | exact Or.inr ⟨Or.inr rfl, rfl⟩

theorem runS_fail500 (body : ReqBody) (api : Nat → ApiResult)
    (k : Nat) (e : String)
    (hke : generateContentS (api k) = .error e)
    (hk : k < (runS body api).prompts.length) :
    (runS body api).resp.status = 500 ∧
      (runS body api).resp.body.isError = true := by
  unfold runS at hk ⊢
  dsimp only at hk ⊢
  repeat' split at hk <;> try simp only [List.length_cons, List.length_nil] at hk
  all_goals first
    | (exfalso; omega)
    | (have hk0 : k = 0 := by omega
       subst hk0
       simp_all [jsonResp, JsonBody.isError])

theorem runS_agree (body : ReqBody) (a b : Nat → ApiResult)
    (h : ∀ k, k < 6 → a k = b k) :
    runS body a = runS body b := by
  unfold runS
  rw [h 0 (by omega)]

theorem selIndex_le_two (c : String) : selIndex c ≤ 2 := by
  unfold selIndex
  split
  · rename_i hc
    simp only [List.elem_eq_mem, List.mem_cons, List.not_mem_nil, or_false,
      decide_eq_true_eq] at hc
    rcases hc with rfl | rfl | rfl <;> decide
  · omega

theorem selIndex_eq_zero (c : String)
    (h : ¬(c = "1" ∨ c = "2" ∨ c = "3")) : selIndex c = 0 := by
  unfold selIndex
  split
  · rename_i hc
    simp only [List.elem_eq_mem, List.mem_cons, List.not_mem_nil, or_false,
      decide_eq_true_eq] at hc
    exact absurd hc h
  · rfl

theorem runA_stage2_inv (body : ReqBody) (env : Env) (api : Nat → ApiResult)
    (h : 2 ≤ (runA body env api).prompts.length) :
    ∃ v1, callGeminiRobust (api 0) = .ok v1 ∧ 3 ≤ (splitVariations v1).length ∧
      ∀ v2, callGeminiRobust (api 1) = .ok v2 →
        selIndex (jsTrim v2) < (splitVariations v1).length ∧
        (runA body env api).prompts[2]? =
          some (stage3PromptA ((splitVariations v1)[selIndex (jsTrim v2)]!)) ∧
        3 ≤ (runA body env api).prompts.length := by
  unfold runA at h ⊢
  dsimp only at h ⊢
  repeat' split at h <;>
    try simp only [List.length_cons, List.length_nil] at h
  all_goals try (exfalso; omega)
  all_goals refine ⟨_, by assumption, by omega, ?_⟩
  all_goals intro v2 hv2
  all_goals first
    | (refine ⟨by have h2le := selIndex_le_two (jsTrim v2); omega, ?_, ?_⟩ <;>
        (simp_all
         repeat' split <;> first | omega | simp_all))
    | (exfalso; simp_all)


theorem runE_stage2_inv (body : ReqBody) (env : Env) (api : Nat → ApiResult)
    (h : 2 ≤ (runE body env api).prompts.length) :
    ∃ v1, callGeminiRobust (api 0) = .ok v1 ∧ 3 ≤ (splitVariations v1).length ∧
      ∀ v2, callGeminiRobust (api 1) = .ok v2 →
        selIndex (jsTrim v2) < (splitVariations v1).length ∧
        (runE body env api).prompts[2]? =
          some (stage3PromptE ((splitVariations v1)[selIndex (jsTrim v2)]!)) ∧
        3 ≤ (runE body env api).prompts.length := by
  unfold runE at h ⊢
  dsimp only at h ⊢
  repeat' split at h <;>
    try simp only [List.length_cons, List.length_nil] at h
  all_goals try (exfalso; omega)
  all_goals refine ⟨_, by assumption, by omega, ?_⟩
  all_goals intro v2 hv2
  all_goals first
    | (refine ⟨by have h2le := selIndex_le_two (jsTrim v2); omega, ?_, ?_⟩ <;>
        (simp_all
         repeat' split <;> first | omega | simp_all))
    | (exfalso; simp_all)


theorem runA_fallback (body : ReqBody) (env : Env) (api : Nat → ApiResult)
    (htext : textInvalid body.text = false)
    (htone : toneAllowed (toneDefaulted body.tone) = true)
    (hkey : keyMissing env = false)
    (v1 v2 : String)
    (h1 : callGeminiRobust (api 0) = .ok v1) (hlen : 3 ≤ (splitVariations v1).length)
    (h2 : callGeminiRobust (api 1) = .ok v2)
    (hch : ¬(jsTrim v2 = "1" ∨ jsTrim v2 = "2" ∨ jsTrim v2 = "3")) :
    selIndex (jsTrim v2) = 0 ∧
    (runA body env api).prompts[2]? = some (stage3PromptA ((splitVariations v1)[0]!)) ∧
    3 ≤ (runA body env api).prompts.length := by
  have hz := selIndex_eq_zero (jsTrim v2) hch
  refine ⟨hz, ?_, ?_⟩ <;>
    (unfold runA
     simp [htext, htone, hkey, h1, h2, hz, Nat.not_lt.mpr hlen]
     repeat' split <;> try simp)


theorem runD_fallback (body : ReqBody) (env : Env) (api : Nat → ApiResult)
    (htext : textInvalid body.text = false)
    (htone : toneAllowed (toneDefaulted body.tone) = true)
    (hkey : keyMissing env = false)
    (v1 v2 : String)
    (h1 : callGeminiRobust (api 0) = .ok v1) (hlen : 3 ≤ (splitVariations v1).length)
    (h2 : callGeminiRobust (api 1) = .ok v2)
    (hch : ¬(jsTrim v2 = "1" ∨ jsTrim v2 = "2" ∨ jsTrim v2 = "3")) :
    selIndex (jsTrim v2) = 0 ∧
    (runD body env api).prompts[2]? = some (stage3PromptD ((splitVariations v1)[0]!)) ∧
    3 ≤ (runD body env api).prompts.length := by
  have hz := selIndex_eq_zero (jsTrim v2) hch
  refine ⟨hz, ?_, ?_⟩ <;>
    (unfold runD
     simp [htext, htone, hkey, h1, h2, hz, Nat.not_lt.mpr hlen]
     repeat' split <;> try simp)


theorem runE_fallback (body : ReqBody) (env : Env) (api : Nat → ApiResult)
    (htext : textInvalid body.text = false)
    (htone : toneAllowed (toneDefaulted body.tone) = true)
    (hkey : keyMissing env = false)
    (v1 v2 : String)
    (h1 : callGeminiRobust (api 0) = .ok v1) (hlen : 3 ≤ (splitVariations v1).length)
    (h2 : callGeminiRobust (api 1) = .ok v2)
    (hch : ¬(jsTrim v2 = "1" ∨ jsTrim v2 = "2" ∨ jsTrim v2 = "3")) :
    selIndex (jsTrim v2) = 0 ∧
    (runE body env api).prompts[2]? = some (stage3PromptE ((splitVariations v1)[0]!)) ∧
    3 ≤ (runE body env api).prompts.length := by
  have hz := selIndex_eq_zero (jsTrim v2) hch
  refine ⟨hz, ?_, ?_⟩ <;>
    (unfold runE
     simp [htext, htone, hkey, h1, h2, hz, Nat.not_lt.mpr hlen]
     repeat' split <;> try simp)

/-- C6: the fetch to the external API is retry-free in the cited handlers
(first paraphrase.js variant and part_000): a run issues at most one
request per pipeline stage (at most 5 resp. 4 in total), and every request
except possibly the last issued one succeeded — equivalently, a network
error, non-OK status or malformed/empty content at any stage aborts the
pipeline: no request is issued after a failed one, and no stage is ever
re-issued. -/
theorem claim6_retry_free (body : ReqBody) (env : Env) (api : Nat → ApiResult) :
    (runA body env api).prompts.length ≤ 5 ∧
    (runD body env api).prompts.length ≤ 4 ∧
    (∀ k, k + 1 < (runA body env api).prompts.length →
      ∃ o, callGeminiRobust (api k) = .ok o) ∧
    (∀ k, k + 1 < (runD body env api).prompts.length →
      ∃ o, callGeminiRobust (api k) = .ok o) :=
  ⟨runA_len_le body env api, runD_len_le body env api,
   runA_nonlast_ok body env api, runD_nonlast_ok body env api⟩

set_option maxRecDepth 100000 in
/-- Witness for C6 at a concrete all-success run. -/
theorem claim6_witness :
    (runA ⟨some (.str "hi"), none⟩ ⟨some "k"⟩
        (fun k => ApiResult.ok (["a|||b|||c", "2", "c3", "c4", "v5"].getD k "x"))).prompts.length ≤ 5 ∧
    ∃ o, callGeminiRobust
        ((fun k => ApiResult.ok (["a|||b|||c", "2", "c3", "c4", "v5"].getD k "x")) 0) = .ok o := by
  refine ⟨(claim6_retry_free ⟨some (.str "hi"), none⟩ ⟨some "k"⟩
      (fun k => ApiResult.ok (["a|||b|||c", "2", "c3", "c4", "v5"].getD k "x"))).1,
    (claim6_retry_free ⟨some (.str "hi"), none⟩ ⟨some "k"⟩
      (fun k => ApiResult.ok (["a|||b|||c", "2", "c3", "c4", "v5"].getD k "x"))).2.2.1 0 (by decide)⟩

/-- C7: every handler is stateless and deterministic relative to its
inputs: two invocations with the same request body, the same environment
and the same replies from the external API (on every request the variants
can issue, i.e. the first 6) produce identical HTTP responses and identical
prompt sequences. -/
theorem claim7_deterministic (body : ReqBody) (env : Env) (a b : Nat → ApiResult)
    (h : ∀ k, k < 6 → a k = b k) :
    runA body env a = runA body env b ∧ runB body env a = runB body env b ∧
    runC body env a = runC body env b ∧ runD body env a = runD body env b ∧
    runE body env a = runE body env b ∧ runS body a = runS body b :=
  ⟨runA_agree body env a b h, runB_agree body env a b h, runC_agree body env a b h,
   runD_agree body env a b h, runE_agree body env a b h, runS_agree body a b h⟩

/-- Witness for C7 at two syntactically different but agreeing oracles. -/
theorem claim7_witness :
    runA ⟨some (.str "hi"), none⟩ ⟨some "k"⟩ (fun _ => ApiResult.ok "y") =
      runA ⟨some (.str "hi"), none⟩ ⟨some "k"⟩
        (fun k => if k < 10 then ApiResult.ok "y" else ApiResult.networkError) :=
  (claim7_deterministic ⟨some (.str "hi"), none⟩ ⟨some "k"⟩ _ _
    (fun k hk => by rw [if_pos (by omega : k < 10)])).1

/-- C8: every branch of every handler wraps its reply as JSON and sets the
`Content-Type: application/json` header (the body type `JsonBody` is a JSON
object by construction). -/
theorem claim8_json_envelope (body : ReqBody) (env : Env) (api : Nat → ApiResult) :
    (runA body env api).resp.contentType = "application/json" ∧
    (runB body env api).resp.contentType = "application/json" ∧
    (runC body env api).resp.contentType = "application/json" ∧
    (runD body env api).resp.contentType = "application/json" ∧
    (runE body env api).resp.contentType = "application/json" ∧
    (runS body api).resp.contentType = "application/json" :=
  ⟨runA_ct body env api, runB_ct body env api, runC_ct body env api,
   runD_ct body env api, runE_ct body env api, runS_ct body api⟩

/-- C9: validation strictly precedes all external effects: a 400 response
(invalid text or tone) is returned with no API request issued, and when the
API key is missing but the body is valid, the handler replies with its
key-missing 500 response, again with no API request issued. -/
theorem claim9_validation_first (body : ReqBody) (env : Env) (api : Nat → ApiResult) :
    ((runA body env api).resp.status = 400 → (runA body env api).prompts = []) ∧
    ((runB body env api).resp.status = 400 → (runB body env api).prompts = []) ∧
    ((runC body env api).resp.status = 400 → (runC body env api).prompts = []) ∧
    ((runD body env api).resp.status = 400 → (runD body env api).prompts = []) ∧
    ((runE body env api).resp.status = 400 → (runE body env api).prompts = []) ∧
    ((runS body api).resp.status = 400 → (runS body api).prompts = []) ∧
    (textInvalid body.text = false → toneAllowed (toneDefaulted body.tone) = true →
      keyMissing env = true →
      runA body env api =
        ⟨jsonResp (.errObj "GEMINI_API_KEY is missing in environment variables") 500, []⟩ ∧
      runD body env api =
        ⟨jsonResp (.errObj "GEMINI_API_KEY is missing in environment variables") 500, []⟩ ∧
      runE body env api =
        ⟨jsonResp (.errObj "GEMINI_API_KEY is missing in environment variables") 500, []⟩ ∧
      runC body env api = ⟨jsonResp (.errObj "Missing Gemini API key") 500, []⟩) ∧
    (textInvalid body.text = false →
      (match body.tone with | some v => toneAllowed v | none => false) = true →
      keyMissing env = true →
      runB body env api = ⟨jsonResp (.errObj "Server configuration error") 500, []⟩) := by
  refine ⟨runA_400 body env api, runB_400 body env api, runC_400 body env api,
    runD_400 body env api, runE_400 body env api, runS_400 body api,
    fun ht hto hk => ⟨runA_keymiss body env api ht hto hk, runD_keymiss body env api ht hto hk,
      runE_keymiss body env api ht hto hk, runC_keymiss body env api ht hto hk⟩,
    fun ht hto hk => runB_keymiss body env api ht hto hk⟩

set_option maxRecDepth 100000 in
/-- Witness for C9: a missing key with a valid body issues no request, and
a concrete 400 run of the second variant issues no request. -/
theorem claim9_witness :
    runA ⟨some (.str "hi"), none⟩ ⟨none⟩ (fun _ => ApiResult.ok "y") =
      ⟨jsonResp (.errObj "GEMINI_API_KEY is missing in environment variables") 500, []⟩ ∧
    (runB ⟨some (.str "hi"), none⟩ ⟨some "k"⟩ (fun _ => ApiResult.ok "y")).prompts = [] := by
  refine ⟨((claim9_validation_first ⟨some (.str "hi"), none⟩ ⟨none⟩
      (fun _ => ApiResult.ok "y")).2.2.2.2.2.2.1 (by decide) (by decide) (by decide)).1, ?_⟩
  exact (claim9_validation_first ⟨some (.str "hi"), none⟩ ⟨some "k"⟩
    (fun _ => ApiResult.ok "y")).2.1 (by decide)

/-- C1: for a validated request each variant issues a number of external
API calls fixed by the variant alone — 5 for the first paraphrase.js
variant, 4 for the second and third, 4 for part_000, 6 for part_001, 1 for
server.js.  Whenever a handler replies 200 it has issued exactly that many
calls and the JSON body carries exactly the text extracted from the final
call (the second and first variants trim inside their call helper, the
third passes the content through untouched, server.js trims in the
handler); and whenever every call of the variant succeeds (for the stage-1
call: delivering at least three parseable candidates, and for the second
variant a parseable selection) the handler replies 200 with exactly the
text of the final call. -/
theorem claim1_fixed_pipeline_and_final_text
    (body : ReqBody) (env : Env) (api : Nat → ApiResult) :
    ((runA body env api).resp.status = 200 →
      (runA body env api).prompts.length = 5 ∧
      ∃ out, callGeminiRobust (api 4) = .ok out ∧
        (runA body env api).resp.body = .resultObj out) ∧
    ((runB body env api).resp.status = 200 →
      (runB body env api).prompts.length = 4 ∧
      ∃ out, callGeminiB (api 3) = .ok out ∧
        (runB body env api).resp.body = .resultObj out) ∧
    ((runC body env api).resp.status = 200 →
      (runC body env api).prompts.length = 4 ∧
      ∃ out, callGeminiC (api 3) = .ok out ∧
        (runC body env api).resp.body = .resultObj out) ∧
    ((runD body env api).resp.status = 200 →
      (runD body env api).prompts.length = 4 ∧
      ∃ out, callGeminiRobust (api 3) = .ok out ∧
        (runD body env api).resp.body = .resultObj out) ∧
    ((runE body env api).resp.status = 200 →
      (runE body env api).prompts.length = 6 ∧
      ∃ out, callGeminiRobust (api 5) = .ok out ∧
        (runE body env api).resp.body = .resultObj out) ∧
    ((runS body api).resp.status = 200 →
      (runS body api).prompts.length = 1 ∧
      ∃ out, generateContentS (api 0) = .ok out ∧
        (runS body api).resp.body = .paraphrasedObj (jsTrim out)) ∧
    (∀ v1 v2 v3 v4 v5 : String,
      textInvalid body.text = false → toneAllowed (toneDefaulted body.tone) = true →
      keyMissing env = false →
      callGeminiRobust (api 0) = .ok v1 → 3 ≤ (splitVariations v1).length →
      callGeminiRobust (api 1) = .ok v2 → callGeminiRobust (api 2) = .ok v3 →
      callGeminiRobust (api 3) = .ok v4 → callGeminiRobust (api 4) = .ok v5 →
      (runA body env api).resp = jsonResp (.resultObj v5) 200 ∧
        (runA body env api).prompts.length = 5) ∧
    (∀ w1 w2 w3 w4 sel : String,
      textInvalid body.text = false →
      (match body.tone with | some v => toneAllowed v | none => false) = true →
      keyMissing env = false →
      callGeminiB (api 0) = .ok w1 →
      jsIsEmpty (findNumbered "1." (linesOf w1)) = false →
      jsIsEmpty (findNumbered "2." (linesOf w1)) = false →
      jsIsEmpty (findNumbered "3." (linesOf w1)) = false →
      callGeminiB (api 1) = .ok w2 →
      selectVarB (jsParseInt (jsTrim w2)) (findNumbered "1." (linesOf w1))
        (findNumbered "2." (linesOf w1)) (findNumbered "3." (linesOf w1)) = some sel →
      callGeminiB (api 2) = .ok w3 → callGeminiB (api 3) = .ok w4 →
      (runB body env api).resp = jsonResp (.resultObj w4) 200 ∧
        (runB body env api).prompts.length = 4) ∧
    (∀ v1 v2 v3 v4 : String,
      textInvalid body.text = false → toneAllowed (toneDefaulted body.tone) = true →
      keyMissing env = false →
      callGeminiC (api 0) = .ok v1 → 3 ≤ (splitVariations v1).length →
      callGeminiC (api 1) = .ok v2 → callGeminiC (api 2) = .ok v3 →
      callGeminiC (api 3) = .ok v4 →
      (runC body env api).resp = jsonResp (.resultObj v4) 200 ∧
        (runC body env api).prompts.length = 4) ∧
    (∀ v1 v2 v3 v4 : String,
      textInvalid body.text = false → toneAllowed (toneDefaulted body.tone) = true →
      keyMissing env = false →
      callGeminiRobust (api 0) = .ok v1 → 3 ≤ (splitVariations v1).length →
      callGeminiRobust (api 1) = .ok v2 → callGeminiRobust (api 2) = .ok v3 →
      callGeminiRobust (api 3) = .ok v4 →
      (runD body env api).resp = jsonResp (.resultObj v4) 200 ∧
        (runD body env api).prompts.length = 4) ∧
    (∀ v1 v2 v3 v4 v5 v6 : String,
      textInvalid body.text = false → toneAllowed (toneDefaulted body.tone) = true →
      keyMissing env = false →
      callGeminiRobust (api 0) = .ok v1 → 3 ≤ (splitVariations v1).length →
      callGeminiRobust (api 1) = .ok v2 → callGeminiRobust (api 2) = .ok v3 →
      callGeminiRobust (api 3) = .ok v4 → callGeminiRobust (api 4) = .ok v5 →
      callGeminiRobust (api 5) = .ok v6 →
      (runE body env api).resp = jsonResp (.resultObj v6) 200 ∧
        (runE body env api).prompts.length = 6) ∧
    (∀ t : String, validateInputS body.text = none → generateContentS (api 0) = .ok t →
      (runS body api).resp = jsonResp (.paraphrasedObj (jsTrim t)) 200 ∧
        (runS body api).prompts.length = 1) := by
  refine ⟨runA_200 body env api, runB_200 body env api, runC_200 body env api,
    runD_200 body env api, runE_200 body env api, runS_200 body api,
    ?_, ?_, ?_, ?_, ?_, ?_⟩
  · intro v1 v2 v3 v4 v5 ht hto hk h1 hl h2 h3 h4 h5
    obtain ⟨hr, hp⟩ := runA_success body env api ht hto hk v1 v2 v3 v4 v5 h1 hl h2 h3 h4 h5
    exact ⟨hr, by rw [hp]; rfl⟩
  · intro w1 w2 w3 w4 sel ht hto hk h1 hv1 hv2 hv3 h2 hsel h3 h4
    obtain ⟨hr, hp⟩ := runB_success body env api ht hto hk w1 w2 w3 w4 sel h1 hv1 hv2 hv3 h2 hsel h3 h4
    exact ⟨hr, by rw [hp]; rfl⟩
  · intro v1 v2 v3 v4 ht hto hk h1 hl h2 h3 h4
    obtain ⟨hr, hp⟩ := runC_success body env api ht hto hk v1 v2 v3 v4 h1 hl h2 h3 h4
    exact ⟨hr, by rw [hp]; rfl⟩
  · intro v1 v2 v3 v4 ht hto hk h1 hl h2 h3 h4
    obtain ⟨hr, hp⟩ := runD_success body env api ht hto hk v1 v2 v3 v4 h1 hl h2 h3 h4
    exact ⟨hr, by rw [hp]; rfl⟩
  · intro v1 v2 v3 v4 v5 v6 ht hto hk h1 hl h2 h3 h4 h5 h6
    obtain ⟨hr, hp⟩ := runE_success body env api ht hto hk v1 v2 v3 v4 v5 v6 h1 hl h2 h3 h4 h5 h6
    exact ⟨hr, by rw [hp]; rfl⟩
  · intro t hval h1
    obtain ⟨hr, hp⟩ := runS_success body api hval t h1
    exact ⟨hr, by rw [hp]; rfl⟩

set_option maxRecDepth 100000 in
/-- Witness for C1: a concrete all-success run of the first variant issues
exactly 5 calls and returns the text of the fifth call. -/
theorem claim1_witness :
    (runA ⟨some (.str "hello"), none⟩ ⟨some "key"⟩
        (fun k => ApiResult.ok (["a|||b|||c", "2", "c3", "c4", "v5"].getD k "x"))).resp =
      jsonResp (.resultObj "v5") 200 ∧
    (runA ⟨some (.str "hello"), none⟩ ⟨some "key"⟩
        (fun k => ApiResult.ok (["a|||b|||c", "2", "c3", "c4", "v5"].getD k "x"))).prompts.length = 5 :=
  (claim1_fixed_pipeline_and_final_text ⟨some (.str "hello"), none⟩ ⟨some "key"⟩
      (fun k => ApiResult.ok (["a|||b|||c", "2", "c3", "c4", "v5"].getD k "x"))).2.2.2.2.2.2.1
    "a|||b|||c" "2" "c3" "c4" "v5" (by decide) (by decide) (by decide) rfl
    (by decide) rfl rfl rfl rfl

/-- C3: in the first paraphrase.js variant and in part_001, whenever the
pipeline reaches the selection stage, the stage-1 reply parsed into at
least three candidates, the index computed from the stage-2 reply is in
range (and always at most 2), and the first refinement prompt is built from
the candidate at that index — the indexing never leaves the list. -/
theorem claim3_selection_in_bounds (body : ReqBody) (env : Env) (api : Nat → ApiResult) :
    (2 ≤ (runA body env api).prompts.length →
      ∃ v1, callGeminiRobust (api 0) = .ok v1 ∧ 3 ≤ (splitVariations v1).length ∧
        ∀ v2, callGeminiRobust (api 1) = .ok v2 →
          selIndex (jsTrim v2) < (splitVariations v1).length ∧
          (runA body env api).prompts[2]? =
            some (stage3PromptA ((splitVariations v1)[selIndex (jsTrim v2)]!)) ∧
          3 ≤ (runA body env api).prompts.length) ∧
    (2 ≤ (runE body env api).prompts.length →
      ∃ v1, callGeminiRobust (api 0) = .ok v1 ∧ 3 ≤ (splitVariations v1).length ∧
        ∀ v2, callGeminiRobust (api 1) = .ok v2 →
          selIndex (jsTrim v2) < (splitVariations v1).length ∧
          (runE body env api).prompts[2]? =
            some (stage3PromptE ((splitVariations v1)[selIndex (jsTrim v2)]!)) ∧
          3 ≤ (runE body env api).prompts.length) ∧
    (∀ c : String, selIndex c ≤ 2) :=
  ⟨runA_stage2_inv body env api, runE_stage2_inv body env api, selIndex_le_two⟩

set_option maxRecDepth 100000 in
/-- Witness for C3 at a concrete run that selects candidate 3. -/
theorem claim3_witness :
    selIndex (jsTrim "3") < (splitVariations "a|||b|||c").length ∧
    (runA ⟨some (.str "hello"), none⟩ ⟨some "key"⟩
        (fun k => ApiResult.ok (["a|||b|||c", "3", "r3", "r4", "r5"].getD k "x"))).prompts[2]? =
      some (stage3PromptA ((splitVariations "a|||b|||c")[selIndex (jsTrim "3")]!)) := by
  obtain ⟨v1, hv1, hlen, hall⟩ :=
    (claim3_selection_in_bounds ⟨some (.str "hello"), none⟩ ⟨some "key"⟩
      (fun k => ApiResult.ok (["a|||b|||c", "3", "r3", "r4", "r5"].getD k "x"))).1 (by decide)
  have hc : callGeminiRobust
      ((fun k => ApiResult.ok (["a|||b|||c", "3", "r3", "r4", "r5"].getD k "x")) 0) =
      Except.ok "a|||b|||c" := rfl
  rw [hv1] at hc
  obtain rfl := Except.ok.inj hc
  exact ⟨(hall "3" rfl).1, (hall "3" rfl).2.1⟩

/-- C10: in the first paraphrase.js variant, part_000 and part_001, a
trimmed stage-2 reply other than "1", "2" or "3" silently selects index 0
(the first generated candidate) and the pipeline continues: the first
refinement prompt is built from candidate 0 and at least a third request is
issued. -/
theorem claim10_selection_fallback (body : ReqBody) (env : Env) (api : Nat → ApiResult) :
    (∀ v1 v2 : String,
      textInvalid body.text = false → toneAllowed (toneDefaulted body.tone) = true →
      keyMissing env = false →
      callGeminiRobust (api 0) = .ok v1 → 3 ≤ (splitVariations v1).length →
      callGeminiRobust (api 1) = .ok v2 →
      ¬(jsTrim v2 = "1" ∨ jsTrim v2 = "2" ∨ jsTrim v2 = "3") →
      selIndex (jsTrim v2) = 0 ∧
      (runA body env api).prompts[2]? =
        some (stage3PromptA ((splitVariations v1)[0]!)) ∧
      3 ≤ (runA body env api).prompts.length) ∧
    (∀ v1 v2 : String,
      textInvalid body.text = false → toneAllowed (toneDefaulted body.tone) = true →
      keyMissing env = false →
      callGeminiRobust (api 0) = .ok v1 → 3 ≤ (splitVariations v1).length →
      callGeminiRobust (api 1) = .ok v2 →
      ¬(jsTrim v2 = "1" ∨ jsTrim v2 = "2" ∨ jsTrim v2 = "3") →
      selIndex (jsTrim v2) = 0 ∧
      (runD body env api).prompts[2]? =
        some (stage3PromptD ((splitVariations v1)[0]!)) ∧
      3 ≤ (runD body env api).prompts.length) ∧
    (∀ v1 v2 : String,
      textInvalid body.text = false → toneAllowed (toneDefaulted body.tone) = true →
      keyMissing env = false →
      callGeminiRobust (api 0) = .ok v1 → 3 ≤ (splitVariations v1).length →
      callGeminiRobust (api 1) = .ok v2 →
      ¬(jsTrim v2 = "1" ∨ jsTrim v2 = "2" ∨ jsTrim v2 = "3") →
      selIndex (jsTrim v2) = 0 ∧
      (runE body env api).prompts[2]? =
        some (stage3PromptE ((splitVariations v1)[0]!)) ∧
      3 ≤ (runE body env api).prompts.length) :=
  ⟨fun v1 v2 ht hto hk h1 hl h2 hch =>
      runA_fallback body env api ht hto hk v1 v2 h1 hl h2 hch,
   fun v1 v2 ht hto hk h1 hl h2 hch =>
      runD_fallback body env api ht hto hk v1 v2 h1 hl h2 hch,
   fun v1 v2 ht hto hk h1 hl h2 hch =>
      runE_fallback body env api ht hto hk v1 v2 h1 hl h2 hch⟩

set_option maxRecDepth 100000 in
/-- Witness for C10 at a concrete run whose selection reply is "zz". -/
theorem claim10_witness :
    selIndex (jsTrim "zz") = 0 ∧
    (runA ⟨some (.str "hello"), none⟩ ⟨some "key"⟩
        (fun k => ApiResult.ok (["a|||b|||c", "zz", "r3", "r4", "r5"].getD k "x"))).prompts[2]? =
      some (stage3PromptA ((splitVariations "a|||b|||c")[0]!)) := by
  have h := (claim10_selection_fallback ⟨some (.str "hello"), none⟩ ⟨some "key"⟩
      (fun k => ApiResult.ok (["a|||b|||c", "zz", "r3", "r4", "r5"].getD k "x"))).1
      "a|||b|||c" "zz" (by decide) (by decide) (by decide) rfl (by decide)
      rfl (by decide)
  exact ⟨h.1, h.2.1⟩

set_option maxRecDepth 400000 in
/-- C2 is false as stated: in a concrete run of the first paraphrase.js
variant, the stage-2 (selection) prompt does not contain the stage-1 reply
"aa|||bb|||cc" verbatim — it contains only the three parsed candidates —
so it is not the case that the prompt of every later stage contains the
output of the immediately preceding stage as a substring. -/
theorem claim2_counterexample :
    (runA ⟨some (.str "hello"), none⟩ ⟨some "key"⟩
        (fun k => ApiResult.ok (["aa|||bb|||cc", "1", "r3", "r4", "r5"].getD k "x"))).prompts[0]? =
      some (stage1PromptA "hello") ∧
    callGeminiRobust
        ((fun k => ApiResult.ok (["aa|||bb|||cc", "1", "r3", "r4", "r5"].getD k "x")) 0) =
      .ok "aa|||bb|||cc" ∧
    (runA ⟨some (.str "hello"), none⟩ ⟨some "key"⟩
        (fun k => ApiResult.ok (["aa|||bb|||cc", "1", "r3", "r4", "r5"].getD k "x"))).prompts[1]? =
      some (stage2PromptA "aa" "bb" "cc") ∧
    ¬ SubstrP "aa|||bb|||cc" (stage2PromptA "aa" "bb" "cc") :=
  ⟨by decide, rfl, by decide, by decide⟩

/-- C2 (amended): in every multi-stage variant the stages are a sequential
dependency chain — each prompt is built from the output of the previous call —
and the verbatim-containment holds in this form: the stage-1 prompt
contains the raw input text verbatim; the selection prompt contains each of
the three parsed candidates verbatim (not the raw stage-1 reply); the
first refinement prompt contains the selected candidate verbatim (not the
selection reply, which is consumed only as an index or number); and each
later refinement prompt contains the previous refinement output verbatim. -/
theorem claim2_amended_prompt_chain (body : ReqBody) (env : Env) (api : Nat → ApiResult) :
    (∀ v1 v2 v3 v4 v5 : String,
      textInvalid body.text = false → toneAllowed (toneDefaulted body.tone) = true →
      keyMissing env = false →
      callGeminiRobust (api 0) = .ok v1 → 3 ≤ (splitVariations v1).length →
      callGeminiRobust (api 1) = .ok v2 → callGeminiRobust (api 2) = .ok v3 →
      callGeminiRobust (api 3) = .ok v4 → callGeminiRobust (api 4) = .ok v5 →
      (runA body env api).prompts =
        [stage1PromptA (textStr body.text),
         stage2PromptA ((splitVariations v1)[0]!) ((splitVariations v1)[1]!)
           ((splitVariations v1)[2]!),
         stage3PromptA ((splitVariations v1)[selIndex (jsTrim v2)]!),
         stage4PromptA (toneStr (toneDefaulted body.tone)) v3,
         stage5PromptA (toneStr (toneDefaulted body.tone)) v4] ∧
      SubstrP (textStr body.text) (stage1PromptA (textStr body.text)) ∧
      SubstrP ((splitVariations v1)[0]!)
        (stage2PromptA ((splitVariations v1)[0]!) ((splitVariations v1)[1]!)
          ((splitVariations v1)[2]!)) ∧
      SubstrP ((splitVariations v1)[1]!)
        (stage2PromptA ((splitVariations v1)[0]!) ((splitVariations v1)[1]!)
          ((splitVariations v1)[2]!)) ∧
      SubstrP ((splitVariations v1)[2]!)
        (stage2PromptA ((splitVariations v1)[0]!) ((splitVariations v1)[1]!)
          ((splitVariations v1)[2]!)) ∧
      SubstrP ((splitVariations v1)[selIndex (jsTrim v2)]!)
        (stage3PromptA ((splitVariations v1)[selIndex (jsTrim v2)]!)) ∧
      SubstrP v3 (stage4PromptA (toneStr (toneDefaulted body.tone)) v3) ∧
      SubstrP v4 (stage5PromptA (toneStr (toneDefaulted body.tone)) v4)) ∧
    (∀ w1 w2 w3 w4 sel : String,
      textInvalid body.text = false →
      (match body.tone with | some v => toneAllowed v | none => false) = true →
      keyMissing env = false →
      callGeminiB (api 0) = .ok w1 →
      jsIsEmpty (findNumbered "1." (linesOf w1)) = false →
      jsIsEmpty (findNumbered "2." (linesOf w1)) = false →
      jsIsEmpty (findNumbered "3." (linesOf w1)) = false →
      callGeminiB (api 1) = .ok w2 →
      selectVarB (jsParseInt (jsTrim w2)) (findNumbered "1." (linesOf w1))
        (findNumbered "2." (linesOf w1)) (findNumbered "3." (linesOf w1)) = some sel →
      callGeminiB (api 2) = .ok w3 → callGeminiB (api 3) = .ok w4 →
      (runB body env api).prompts =
        [stage1PromptB (textStr body.text),
         selectPromptB (textStr body.text) (findNumbered "1." (linesOf w1))
           (findNumbered "2." (linesOf w1)) (findNumbered "3." (linesOf w1)),
         stage2PromptB sel,
         stage3PromptB (toneStr (body.tone.getD (.str ""))) w3] ∧
      SubstrP (textStr body.text) (stage1PromptB (textStr body.text)) ∧
      SubstrP (findNumbered "1." (linesOf w1))
        (selectPromptB (textStr body.text) (findNumbered "1." (linesOf w1))
          (findNumbered "2." (linesOf w1)) (findNumbered "3." (linesOf w1))) ∧
      SubstrP (findNumbered "2." (linesOf w1))
        (selectPromptB (textStr body.text) (findNumbered "1." (linesOf w1))
          (findNumbered "2." (linesOf w1)) (findNumbered "3." (linesOf w1))) ∧
      SubstrP (findNumbered "3." (linesOf w1))
        (selectPromptB (textStr body.text) (findNumbered "1." (linesOf w1))
          (findNumbered "2." (linesOf w1)) (findNumbered "3." (linesOf w1))) ∧
      SubstrP sel (stage2PromptB sel) ∧
      SubstrP w3 (stage3PromptB (toneStr (body.tone.getD (.str ""))) w3)) ∧
    (∀ v1 v2 v3 v4 : String,
      textInvalid body.text = false → toneAllowed (toneDefaulted body.tone) = true →
      keyMissing env = false →
      callGeminiC (api 0) = .ok v1 → 3 ≤ (splitVariations v1).length →
      callGeminiC (api 1) = .ok v2 → callGeminiC (api 2) = .ok v3 →
      callGeminiC (api 3) = .ok v4 →
      (runC body env api).prompts =
        [stage1PromptC (textStr body.text),
         stage2PromptC ((splitVariations v1)[0]!) ((splitVariations v1)[1]!)
           ((splitVariations v1)[2]!),
         stage3PromptC ((splitVariations v1)[selIndex (jsTrim v2)]!),
         stage4PromptC (toneStr (toneDefaulted body.tone)) v3] ∧
      SubstrP (textStr body.text) (stage1PromptC (textStr body.text)) ∧
      SubstrP ((splitVariations v1)[selIndex (jsTrim v2)]!)
        (stage3PromptC ((splitVariations v1)[selIndex (jsTrim v2)]!)) ∧
      SubstrP v3 (stage4PromptC (toneStr (toneDefaulted body.tone)) v3)) ∧
    (∀ v1 v2 v3 v4 : String,
      textInvalid body.text = false → toneAllowed (toneDefaulted body.tone) = true →
      keyMissing env = false →
      callGeminiRobust (api 0) = .ok v1 → 3 ≤ (splitVariations v1).length →
      callGeminiRobust (api 1) = .ok v2 → callGeminiRobust (api 2) = .ok v3 →
      callGeminiRobust (api 3) = .ok v4 →
      (runD body env api).prompts =
        [stage1PromptD (textStr body.text),
         stage2PromptD ((splitVariations v1)[0]!) ((splitVariations v1)[1]!)
           ((splitVariations v1)[2]!),
         stage3PromptD ((splitVariations v1)[selIndex (jsTrim v2)]!),
         stage4PromptD (toneStr (toneDefaulted body.tone)) v3] ∧
      SubstrP (textStr body.text) (stage1PromptD (textStr body.text)) ∧
      SubstrP ((splitVariations v1)[selIndex (jsTrim v2)]!)
        (stage3PromptD ((splitVariations v1)[selIndex (jsTrim v2)]!)) ∧
      SubstrP v3 (stage4PromptD (toneStr (toneDefaulted body.tone)) v3)) ∧
    (∀ v1 v2 v3 v4 v5 v6 : String,
      textInvalid body.text = false → toneAllowed (toneDefaulted body.tone) = true →
      keyMissing env = false →
      callGeminiRobust (api 0) = .ok v1 → 3 ≤ (splitVariations v1).length →
      callGeminiRobust (api 1) = .ok v2 → callGeminiRobust (api 2) = .ok v3 →
      callGeminiRobust (api 3) = .ok v4 → callGeminiRobust (api 4) = .ok v5 →
      callGeminiRobust (api 5) = .ok v6 →
      (runE body env api).prompts =
        [stage1PromptE (textStr body.text),
         stage2PromptE ((splitVariations v1)[0]!) ((splitVariations v1)[1]!)
           ((splitVariations v1)[2]!),
         stage3PromptE ((splitVariations v1)[selIndex (jsTrim v2)]!),
         stage4PromptE (toneStr (toneDefaulted body.tone)) v3,
         stage5PromptE (toneStr (toneDefaulted body.tone)) v4,
         stage6PromptE (toneStr (toneDefaulted body.tone)) v5] ∧
      SubstrP (textStr body.text) (stage1PromptE (textStr body.text)) ∧
      SubstrP ((splitVariations v1)[selIndex (jsTrim v2)]!)
        (stage3PromptE ((splitVariations v1)[selIndex (jsTrim v2)]!)) ∧
      SubstrP v3 (stage4PromptE (toneStr (toneDefaulted body.tone)) v3) ∧
      SubstrP v4 (stage5PromptE (toneStr (toneDefaulted body.tone)) v4) ∧
      SubstrP v5 (stage6PromptE (toneStr (toneDefaulted body.tone)) v5)) := by
  refine ⟨?_, ?_, ?_, ?_, ?_⟩
  · intro v1 v2 v3 v4 v5 ht hto hk h1 hl h2 h3 h4 h5
    exact ⟨(runA_success body env api ht hto hk v1 v2 v3 v4 v5 h1 hl h2 h3 h4 h5).2,
      substr_stage1PromptA_text _, substr_stage2PromptA_v1 _ _ _,
      substr_stage2PromptA_v2 _ _ _, substr_stage2PromptA_v3 _ _ _,
      substr_stage3PromptA_sel _, substr_stage4PromptA_sel _ _,
      substr_stage5PromptA_txt _ _⟩
  · intro w1 w2 w3 w4 sel ht hto hk h1 hv1 hv2 hv3 h2 hsel h3 h4
    exact ⟨(runB_success body env api ht hto hk w1 w2 w3 w4 sel h1 hv1 hv2 hv3 h2 hsel h3 h4).2,
      substr_stage1PromptB_text _, substr_selectPromptB_v1 _ _ _ _,
      substr_selectPromptB_v2 _ _ _ _, substr_selectPromptB_v3 _ _ _ _,
      substr_stage2PromptB_sel _, substr_stage3PromptB_txt _ _⟩
  · intro v1 v2 v3 v4 ht hto hk h1 hl h2 h3 h4
    exact ⟨(runC_success body env api ht hto hk v1 v2 v3 v4 h1 hl h2 h3 h4).2,
      substr_stage1PromptC_text _, substr_stage3PromptC_sel _,
      substr_stage4PromptC_sel _ _⟩
  · intro v1 v2 v3 v4 ht hto hk h1 hl h2 h3 h4
    exact ⟨(runD_success body env api ht hto hk v1 v2 v3 v4 h1 hl h2 h3 h4).2,
      substr_stage1PromptD_text _, substr_stage3PromptD_sel _,
      substr_stage4PromptD_sel _ _⟩
  · intro v1 v2 v3 v4 v5 v6 ht hto hk h1 hl h2 h3 h4 h5 h6
    exact ⟨(runE_success body env api ht hto hk v1 v2 v3 v4 v5 v6 h1 hl h2 h3 h4 h5 h6).2,
      substr_stage1PromptE_text _, substr_stage3PromptE_sel _,
      substr_stage4PromptE_sel _ _, substr_stage5PromptE_txt _ _,
      substr_stage6PromptE_txt _ _⟩

set_option maxRecDepth 400000 in
/-- Witness for the amended C2 at a concrete run of the first variant. -/
theorem claim2_witness :
    SubstrP "hello" (stage1PromptA "hello") ∧
    SubstrP "aa" (stage2PromptA "aa" "bb" "cc") := by
  have h := (claim2_amended_prompt_chain ⟨some (.str "hello"), none⟩ ⟨some "key"⟩
      (fun k => ApiResult.ok (["aa|||bb|||cc", "1", "r3", "r4", "r5"].getD k "x"))).1
      "aa|||bb|||cc" "1" "r3" "r4" "r5" (by decide) (by decide) (by decide) rfl
      (by decide) rfl rfl rfl rfl
  exact ⟨h.2.1, h.2.2.1⟩

set_option maxRecDepth 100000 in
/-- C4 is false as stated: the second paraphrase.js variant does not treat
the tone as optional — a request with valid text but no tone field is
rejected with 400 instead of being handled with the "standard" tone. -/
theorem claim4_counterexample :
    (runB ⟨some (.str "hello"), none⟩ ⟨some "key"⟩ (fun _ => ApiResult.ok "x")).resp =
      jsonResp (.errObj "Invalid tone: must be one of standard, simple, professional, academic")
        400 := by decide

/-- C4 (amended): the tone is optional in the first and third
paraphrase.js variants, part_000 and part_001 — a request without a tone
field is handled exactly as if the tone were "standard" — and server.js
ignores the tone field entirely; the second paraphrase.js variant instead
rejects any request without a valid tone field with 400. -/
theorem claim4_amended_tone_optional (t : Option JsVal) (env : Env) (api : Nat → ApiResult) :
    runA ⟨t, none⟩ env api = runA ⟨t, some (.str "standard")⟩ env api ∧
    runC ⟨t, none⟩ env api = runC ⟨t, some (.str "standard")⟩ env api ∧
    runD ⟨t, none⟩ env api = runD ⟨t, some (.str "standard")⟩ env api ∧
    runE ⟨t, none⟩ env api = runE ⟨t, some (.str "standard")⟩ env api ∧
    (∀ v : Option JsVal, runS ⟨t, none⟩ api = runS ⟨t, v⟩ api) ∧
    (textInvalid t = false →
      (runB ⟨t, none⟩ env api).resp =
        jsonResp (.errObj "Invalid tone: must be one of standard, simple, professional, academic")
          400) := by
  refine ⟨rfl, rfl, rfl, rfl, fun v => rfl, fun ht => ?_⟩
  unfold runB
  simp [ht]

set_option maxRecDepth 100000 in
/-- Witness for the amended C4 at a concrete request without a tone. -/
theorem claim4_witness :
    runA ⟨some (.str "hi"), none⟩ ⟨some "k"⟩ (fun _ => ApiResult.ok "y") =
      runA ⟨some (.str "hi"), some (.str "standard")⟩ ⟨some "k"⟩ (fun _ => ApiResult.ok "y") ∧
    (runB ⟨some (.str "hi"), none⟩ ⟨some "k"⟩ (fun _ => ApiResult.ok "y")).resp =
      jsonResp (.errObj "Invalid tone: must be one of standard, simple, professional, academic")
        400 :=
  ⟨(claim4_amended_tone_optional (some (.str "hi")) ⟨some "k"⟩ (fun _ => ApiResult.ok "y")).1,
   (claim4_amended_tone_optional (some (.str "hi")) ⟨some "k"⟩
     (fun _ => ApiResult.ok "y")).2.2.2.2.2 (by decide)⟩

set_option maxRecDepth 400000 in
/-- C5 is false as stated: in the second paraphrase.js variant an OK reply
whose content is the empty string ("empty content") at the final stage is
not turned into a 500 — the handler replies 200 with an empty result. -/
theorem claim5_counterexample :
    ((fun k => ApiResult.ok (["1. aa\n2. bb\n3. cc", "1", "xx", ""].getD k "y")) 3) =
      ApiResult.ok "" ∧
    (runB ⟨some (.str "hello"), some (.str "standard")⟩ ⟨some "key"⟩
        (fun k => ApiResult.ok (["1. aa\n2. bb\n3. cc", "1", "xx", ""].getD k "y"))).resp =
      jsonResp (.resultObj "") 200 :=
  ⟨by decide, by decide⟩

/-- C5 (amended): every failure the handlers detect — network errors,
non-OK statuses, unparseable JSON, missing content chains, empty content in
the robust variants, and the parse failures — aborts the pipeline with
HTTP 500 and a JSON error body; every non-200 response carries a JSON
error body (never a partial rewrite), and a 200 response carries exactly
the extracted text of the final call.  However, in the second and third
paraphrase.js variants an OK reply with empty text is NOT detected as a
failure: it propagates, and at the final stage produces a 200 with an
empty result (see the counterexample). -/
theorem claim5_amended_failures_500 (body : ReqBody) (env : Env) (api : Nat → ApiResult) :
    (∀ k e, callGeminiRobust (api k) = .error e →
      k < (runA body env api).prompts.length →
      (runA body env api).resp.status = 500 ∧
        (runA body env api).resp.body.isError = true) ∧
    (∀ k e, callGeminiB (api k) = .error e →
      k < (runB body env api).prompts.length →
      (runB body env api).resp.status = 500 ∧
        (runB body env api).resp.body.isError = true) ∧
    (∀ k e, callGeminiC (api k) = .error e →
      k < (runC body env api).prompts.length →
      (runC body env api).resp.status = 500 ∧
        (runC body env api).resp.body.isError = true) ∧
    (∀ k e, callGeminiRobust (api k) = .error e →
      k < (runD body env api).prompts.length →
      (runD body env api).resp.status = 500 ∧
        (runD body env api).resp.body.isError = true) ∧
    (∀ k e, callGeminiRobust (api k) = .error e →
      k < (runE body env api).prompts.length →
      (runE body env api).resp.status = 500 ∧
        (runE body env api).resp.body.isError = true) ∧
    (∀ k e, generateContentS (api k) = .error e →
      k < (runS body api).prompts.length →
      (runS body api).resp.status = 500 ∧
        (runS body api).resp.body.isError = true) ∧
    ((runA body env api).resp.status = 200 ∨
      (((runA body env api).resp.status = 400 ∨ (runA body env api).resp.status = 500) ∧
        (runA body env api).resp.body.isError = true)) ∧
    ((runB body env api).resp.status = 200 ∨
      (((runB body env api).resp.status = 400 ∨ (runB body env api).resp.status = 500) ∧
        (runB body env api).resp.body.isError = true)) ∧
    ((runC body env api).resp.status = 200 ∨
      (((runC body env api).resp.status = 400 ∨ (runC body env api).resp.status = 500) ∧
        (runC body env api).resp.body.isError = true)) ∧
    ((runD body env api).resp.status = 200 ∨
      (((runD body env api).resp.status = 400 ∨ (runD body env api).resp.status = 500) ∧
        (runD body env api).resp.body.isError = true)) ∧
    ((runE body env api).resp.status = 200 ∨
      (((runE body env api).resp.status = 400 ∨ (runE body env api).resp.status = 500) ∧
        (runE body env api).resp.body.isError = true)) ∧
    ((runS body api).resp.status = 200 ∨
      (((runS body api).resp.status = 400 ∨ (runS body api).resp.status = 500) ∧
        (runS body api).resp.body.isError = true)) :=
  ⟨fun k e hke hk => runA_fail500 body env api k e hke hk,
   fun k e hke hk => runB_fail500 body env api k e hke hk,
   fun k e hke hk => runC_fail500 body env api k e hke hk,
   fun k e hke hk => runD_fail500 body env api k e hke hk,
   fun k e hke hk => runE_fail500 body env api k e hke hk,
   fun k e hke hk => runS_fail500 body api k e hke hk,
   runA_shape body env api, runB_shape body env api, runC_shape body env api,
   runD_shape body env api, runE_shape body env api, runS_shape body api⟩

set_option maxRecDepth 100000 in
/-- Witness for the amended C5 at a concrete network failure. -/
theorem claim5_witness :
    (runA ⟨some (.str "hi"), none⟩ ⟨some "k"⟩ (fun _ => ApiResult.networkError)).resp.status =
      500 ∧
    (runA ⟨some (.str "hi"), none⟩ ⟨some "k"⟩
        (fun _ => ApiResult.networkError)).resp.body.isError = true :=
  (claim5_amended_failures_500 ⟨some (.str "hi"), none⟩ ⟨some "k"⟩
      (fun _ => ApiResult.networkError)).1 0
    "Failed to reach Gemini API (network error)" rfl (by decide)

end Pharaphraser
